import Mathlib

/-!
# Mamba memory core: pool manager, page tracker and top-level API

A shallow embedding of `src/givers/GarbageCollectedStack/ActiveSetMemory.{hh,cc}`,
`src/givers/GarbageCollectedStack/GarbageBitPage.{hh,cc}` and `src/givers/memory.cc`.

Modelling conventions.

* Addresses (`std::byte*`) are natural numbers and `nullptr` is the address `0`.
  Pointer arithmetic inside a block is exact and a pointer difference (`ptrdiff_t`) is an
  integer. The pointer sums of the bound check of `gather`, one operand of which is an
  arbitrary `size_t` of the caller, are computed in the 64-bit address space: they wrap
  around at `2 ^ 64`.
* `size_t` fields are natural numbers reduced modulo `2 ^ 64` after every arithmetic
  operation of the source; `unsigned int` fields are reduced modulo `2 ^ 32`.
* A heap block owned by a `std::unique_ptr<std::byte[]>` is a `Buffer`: the address the
  system allocator returned, the number of bytes that was requested, and the bytes.
  The address of a new block is chosen by the system allocator, so every operation that
  allocates takes the allocator's answer as an argument (`none` is `std::bad_alloc`).
* An operation returns `none` when the C++ call does not return normally:
  `std::terminate` (an exception leaving a `noexcept` function) or undefined behaviour
  (an access outside a heap block, an out-of-range conversion, `back()` of an empty vector).
* `std::vector<GarbageBitsetPage>` is a logical size together with the reserved storage:
  `clear()` sets the size to zero, `reserve(n)` leaves the size alone, and the unchecked
  `operator[]` reads and writes the storage whatever the size is.
* `std::ceil` is only ever applied to the result of an integer division, where it is the
  identity.
-/

namespace mamba

/-! ## Constants -/

/-- The `DefaultStackSize` constant of `ActiveSetMemory.hh`. -/
def DefaultStackSize : Nat := 100000

/-- The `InitialGrowthFactor` constant of `ActiveSetMemory.hh`. -/
def InitialGrowthFactor : Nat := 2

/-- The `InitialPreservationFactor` constant of `ActiveSetMemory.hh`. -/
def InitialPreservationFactor : Nat := 0

/-- The `SlabsInPage` constant of `GarbageBitPage.hh`. -/
def SlabsInPage : Nat := 64

/-- The `SlabSize` constant of `GarbageBitPage.hh`, written `64 * 8` there. -/
def SlabSize : Nat := 64 * 8

/-- The `PageSize` constant of `GarbageBitPage.hh`, written `64 * 64` there. -/
def PageSize : Nat := 64 * 64

/-- Number of values of a `size_t` (and of a `ptrdiff_t` or `long`). -/
def sizeModulus : Nat := 2 ^ 64

/-- Number of values of an `unsigned int` (and of an `int`). -/
def uintModulus : Nat := 2 ^ 32

/-- The null pointer. -/
def nullptr : Nat := 0

/-- Subtraction of two `size_t` values, which wraps around. -/
def sizeSub (a b : Nat) : Nat := (a % sizeModulus + (sizeModulus - b % sizeModulus)) % sizeModulus

/-- Conversion of a `ptrdiff_t` (or `long`) to `size_t`: reduction modulo `2 ^ 64`. -/
def toSize (d : Int) : Nat := (d % (sizeModulus : Int)).toNat

/-- Conversion of a `long` to `unsigned int`: reduction modulo `2 ^ 32`. -/
def toUint (d : Int) : Nat := (d % (uintModulus : Int)).toNat

/-! ## Handles (`givers/memory.hh`) -/

/-- The `GarbageCollectionGeneration` enumeration of `memory.hh`. -/
inductive GarbageCollectionGeneration where
  | Eden
  | Young
  | Elder
  | Antique
  | Pernament
  deriving DecidableEq, Repr

/-- The `GarbageCollected<>` handle of `memory.hh`. -/
structure GarbageCollected where
  capacity : Nat
  destination : Nat
  lifetime : GarbageCollectionGeneration
  deriving DecidableEq, Repr

/-- The `GarbageCollectionSummary` structure of `memory.hh`. -/
structure GarbageCollectionSummary where
  reclaimedMemoryInBytes : Nat
  aliveMemoryInBytes : Nat
  deriving DecidableEq, Repr

/-! ## Heap blocks -/

/-- A heap block: the address returned by the allocator, the requested size, the bytes
(indexed by offset from the start of the block). -/
structure Buffer where
  base : Nat
  size : Nat
  bytes : Nat → Nat

/-- The block `std::make_unique<std::byte[]>(size)` yields: value-initialised, all zero. -/
def Buffer.fresh (base size : Nat) : Buffer :=
  { base := base, size := size, bytes := fun _ => 0 }

/-- Whether the `count` bytes at `address` lie inside the block. -/
def Buffer.inBounds (b : Buffer) (address count : Nat) : Bool :=
  decide (b.base ≤ address) && decide (address + count ≤ b.base + b.size)

/-- Reads `count` bytes at `address`; `none` when the range leaves the block. A read of
zero bytes touches nothing. -/
def Buffer.read (b : Buffer) (address count : Nat) : Option (Nat → Nat) :=
  if count = 0 then some (fun _ => 0)
  else if b.inBounds address count then some (fun i => b.bytes (address - b.base + i))
  else none

/-- The `std::memcpy(address, source, count)` into the block, `source i` being the
`i`-th byte of the source; `none` when the range leaves the block. A copy of zero bytes
touches nothing. -/
def Buffer.write (b : Buffer) (address : Nat) (source : Nat → Nat) (count : Nat) :
    Option Buffer :=
  if count = 0 then some b
  else if b.inBounds address count then
    some { b with
      bytes := fun i =>
        if address - b.base ≤ i ∧ i < address - b.base + count
        then source (i - (address - b.base)) else b.bytes i }
  else none

/-! ## Page tracker (`GarbageBitPage.{hh,cc}`) -/

/-- The `GarbageBitsetPage` class. `bitmask` is the `std::bitset<SlabSize>`: bit `i` of the
number is bit `i` of the bitset. -/
structure GarbageBitsetPage where
  bitmask : Nat
  beginning : Nat
  yieldingGarbageSlabIndex : Nat
  yieldingAliveSlabIndex : Nat
  deriving DecidableEq, Repr

/-- The constructor `GarbageBitsetPage(std::byte* origin)`: the bitset is default
constructed (all bits zero) and both cursors are zero. -/
def GarbageBitsetPage.create (origin : Nat) : GarbageBitsetPage :=
  { bitmask := 0, beginning := origin, yieldingGarbageSlabIndex := 0,
    yieldingAliveSlabIndex := 0 }

/-- The call `std::bitset<SlabSize>::test(pos)`, which throws `std::out_of_range` for
`pos >= SlabSize`. -/
def bitsetTest (bitmask pos : Nat) : Option Bool :=
  if pos < SlabSize then some (bitmask.testBit pos) else none

/-- The call `std::bitset<SlabSize>::reset(pos)`, which throws `std::out_of_range` for
`pos >= SlabSize`. -/
def bitsetReset (bitmask pos : Nat) : Option Nat :=
  if pos < SlabSize then some (bitmask &&& ((2 ^ SlabSize - 1) ^^^ 2 ^ pos)) else none

/-- The call `std::bitset<SlabSize>::count()`. -/
def bitsetCount (bitmask : Nat) : Nat :=
  ((List.range SlabSize).filter (fun i => bitmask.testBit i)).length

/-- The loop `for (int next = 0; next < amount; ++next) bitmask.reset(offset + next)`,
with `remaining = amount - next` iterations left. -/
def resetLoop (offset : Nat) : Nat → Nat → Nat → Option Nat
  | 0, _, bitmask => some bitmask
  | remaining + 1, next, bitmask =>
    match bitsetReset bitmask ((offset + next) % uintModulus) with
    | none => none
    | some cleared => resetLoop offset remaining (next + 1) cleared

namespace GarbageBitsetPage

/-- The overload `markAsGarbage(unsigned int offset, int amount)`. -/
def markAsGarbage (page : GarbageBitsetPage) (offset : Nat) (amount : Int) :
    Option GarbageBitsetPage :=
  if offset ≤ PageSize then
    match resetLoop offset amount.toNat 0 page.bitmask with
    | none => none
    | some cleared => some { page with bitmask := cleared }
  else some page

/-- The overload `markAsGarbage(const std::byte* slab, int amount)`. The quotient is
converted to `size_t` through `double`, which is undefined for a value that is not a
`size_t`, and then to the `unsigned int` parameter of the other overload. -/
def markAsGarbageAt (page : GarbageBitsetPage) (slab : Nat) (amount : Int) :
    Option GarbageBitsetPage :=
  let bytesBetweenBeginningAndRequestedSlab : Int := (slab : Int) - (page.beginning : Int)
  let quotient : Int := Int.tdiv bytesBetweenBeginningAndRequestedSlab (SlabSize : Int)
  if quotient < 0 ∨ quotient ≥ (sizeModulus : Int) then none
  else page.markAsGarbage (quotient.toNat % uintModulus) amount

/-- The method `getGarbageSize`. -/
def getGarbageSize (page : GarbageBitsetPage) : Nat :=
  ((SlabSize - bitsetCount page.bitmask) * SlabSize) % uintModulus

end GarbageBitsetPage

/-- The loop of `getGarbageSizeBefore`: `for (afterIndex; afterIndex < PageSize; ++afterIndex)
if (!bitmask.test(afterIndex)) afterSeparatorGarbageSize += SlabSize`, with
`remaining = PageSize - afterIndex` iterations left. -/
def garbageAfterLoop (bitmask : Nat) : Nat → Nat → Nat → Option Nat
  | 0, _, afterSeparatorGarbageSize => some afterSeparatorGarbageSize
  | remaining + 1, afterIndex, afterSeparatorGarbageSize =>
    match bitsetTest bitmask afterIndex with
    | none => none
    | some true => garbageAfterLoop bitmask remaining (afterIndex + 1) afterSeparatorGarbageSize
    | some false =>
      garbageAfterLoop bitmask remaining (afterIndex + 1)
        ((afterSeparatorGarbageSize + SlabSize) % uintModulus)

/-- The loops `while (bitmask.test(index)) ++index` (for `wanted = true`) and
`while (!bitmask.test(index)) ++index` (for `wanted = false`): the first index at or after
`index` whose bit differs from `wanted`, or `none` when `test` throws first. The loop
leaves after at most `SlabSize + 1 - index` tests, which is the fuel it is run with. -/
def scanLoop (bitmask : Nat) (wanted : Bool) : Nat → Nat → Option Nat
  | 0, _ => none
  | fuel + 1, index =>
    match bitsetTest bitmask index with
    | none => none
    | some bit => if bit = wanted then scanLoop bitmask wanted fuel (index + 1) else some index

/-- Runs `scanLoop` from `index` with enough fuel to reach the end of the bitset. -/
def scanFrom (bitmask : Nat) (wanted : Bool) (index : Nat) : Option Nat :=
  scanLoop bitmask wanted (SlabSize + 1 - index) index

namespace GarbageBitsetPage

/-- The method `getGarbageSizeBefore(const void* separator)`. -/
def getGarbageSizeBefore (page : GarbageBitsetPage) (separator : Nat) : Option Nat :=
  let targetSlabIndex : Int := Int.tdiv ((separator : Int) - (page.beginning : Int)) (SlabSize : Int)
  if targetSlabIndex > (SlabsInPage : Int) then some page.getGarbageSize
  else
    let afterIndex : Nat := toUint targetSlabIndex
    match garbageAfterLoop page.bitmask (PageSize - afterIndex) afterIndex 0 with
    | none => none
    | some afterSeparatorGarbageSize =>
      some ((page.getGarbageSize + (uintModulus - afterSeparatorGarbageSize)) % uintModulus)

/-- The method `yeildNextGarbageSector(bool shouldMoveSlabCounter)`. -/
def yeildNextGarbageSector (page : GarbageBitsetPage) (shouldMoveSlabCounter : Bool) :
    Option (GarbageCollected × GarbageBitsetPage) :=
  let forwardSlabs : Nat := page.bitmask >>> (page.yieldingGarbageSlabIndex + 1)
  if forwardSlabs = 0 then
    some ({ capacity := 0, destination := nullptr, lifetime := .Eden }, page)
  else
    match scanFrom page.bitmask false page.yieldingGarbageSlabIndex with
    | none => none
    | some index =>
      match scanFrom page.bitmask true index with
      | none => none
      | some stop =>
        let difference : Nat := stop - index
        some ({ capacity := difference, destination := page.beginning + index * SlabSize,
                lifetime := .Eden },
              if shouldMoveSlabCounter then { page with yieldingGarbageSlabIndex := index }
              else page)

/-- The method `yieldNextAliveSector(bool shouldMoveSlabCounter)`. -/
def yieldNextAliveSector (page : GarbageBitsetPage) (shouldMoveSlabCounter : Bool) :
    Option (GarbageCollected × GarbageBitsetPage) :=
  let forwardSlabs : Nat := page.bitmask >>> (page.yieldingAliveSlabIndex + 1)
  if forwardSlabs = 0 then
    some ({ capacity := 0, destination := nullptr, lifetime := .Eden }, page)
  else
    match scanFrom page.bitmask true page.yieldingAliveSlabIndex with
    | none => none
    | some index =>
      match scanFrom page.bitmask false index with
      | none => none
      | some stop =>
        let difference : Nat := stop - index
        some ({ capacity := difference, destination := page.beginning + index * SlabSize,
                lifetime := .Eden },
              if shouldMoveSlabCounter then { page with yieldingAliveSlabIndex := index }
              else page)

end GarbageBitsetPage

/-! ## Pool manager (`ActiveSetMemory.{hh,cc}`) -/

/-- The `MemoryUsageStatistics` structure. The first four fields are `size_t`, the last two
`unsigned int`. -/
structure MemoryUsageStatistics where
  usedMemorySize : Nat
  garbageMemorySize : Nat
  allocatedMemorySize : Nat
  allocatedObjects : Nat
  growths : Nat
  shrinks : Nat
  deriving DecidableEq, Repr

/-- A `std::vector<GarbageBitsetPage>`: the logical size (`size()`, what a range-for loop
walks) and the reserved storage that the unchecked `operator[]` addresses. -/
structure PageVector where
  size : Nat
  storage : List GarbageBitsetPage
  deriving DecidableEq, Repr

/-- The private state of the `ActiveSetMemory` class. The back of the `frames` vector is the
head of the list. -/
structure ActiveSetMemory where
  topOfStack : Nat
  frames : List Nat
  pool : Buffer
  pages : PageVector
  statistics : MemoryUsageStatistics
  growthFactor : Nat
  preservationFactor : Nat
  capacity : Nat

/-- The loop of `resize` over the pages of the old pool, with the `break` as an early
return. It yields the new block and `counter`; `reclaimedGarbageSize` is computed as in the
source although nothing reads it afterwards. The pages themselves are not changed, because
`yieldNextAliveSector` is called with its default argument `false`. -/
def resizeLoop (oldPool : Buffer) (newSize : Nat) :
    List GarbageBitsetPage → Buffer → Nat → Nat → Option (Buffer × Nat)
  | [], resizedPool, counter, _ => some (resizedPool, counter)
  | page :: rest, resizedPool, counter, reclaimedGarbageSize =>
    match page.yieldNextAliveSector false with
    | none => none
    | some (aliveSegment, _) =>
      if (aliveSegment.capacity + counter) % sizeModulus > newSize then
        some (resizedPool, counter)
      else
        match oldPool.read aliveSegment.destination aliveSegment.capacity with
        | none => none
        | some source =>
          match resizedPool.write (resizedPool.base + counter) source aliveSegment.capacity with
          | none => none
          | some copied =>
            match page.getGarbageSizeBefore aliveSegment.destination with
            | none => none
            | some garbageBefore =>
              resizeLoop oldPool newSize rest copied
                ((counter + aliveSegment.capacity) % sizeModulus)
                ((reclaimedGarbageSize + garbageBefore) % sizeModulus)

namespace ActiveSetMemory

/-- The private method `initialisePages`. After `pages.clear()` and
`pages.reserve(numberOfPages)` the vector has size zero; the assignments
`pages[pageIndex] = GarbageBitsetPage(...)` fill the reserved storage and do not change the
size. -/
def initialisePages (m : ActiveSetMemory) : ActiveSetMemory :=
  let numberOfPages : Nat := m.capacity / PageSize
  { m with
    pages :=
      { size := 0
        storage :=
          (List.range numberOfPages).map
            (fun pageIndex => GarbageBitsetPage.create (m.pool.base + pageIndex * PageSize))
          ++ m.pages.storage.drop numberOfPages } }

/-- The constructor `ActiveSetMemory()` when `std::make_unique` succeeds and returns a block
at address `base`. The member initialisers give the statistics and the two factors; `frames`
and `pages` start as empty vectors. -/
def construct (base : Nat) : ActiveSetMemory :=
  initialisePages
    { topOfStack := base
      frames := []
      pool := Buffer.fresh base DefaultStackSize
      pages := { size := 0, storage := [] }
      statistics :=
        { usedMemorySize := 0, garbageMemorySize := 0, allocatedMemorySize := DefaultStackSize,
          allocatedObjects := 0, growths := 0, shrinks := 0 }
      growthFactor := InitialGrowthFactor
      preservationFactor := InitialPreservationFactor
      capacity := DefaultStackSize }

/-- The method `getMemoryUsage`. -/
def getMemoryUsage (m : ActiveSetMemory) : MemoryUsageStatistics := m.statistics

/-- The method `occupiedBytes`. -/
def occupiedBytes (m : ActiveSetMemory) : Nat := m.statistics.usedMemorySize

/-- The method `freeBytes`. -/
def freeBytes (m : ActiveSetMemory) : Nat :=
  sizeSub m.statistics.allocatedMemorySize m.statistics.usedMemorySize

/-- The method `getBookmarks`. -/
def getBookmarks (m : ActiveSetMemory) : Nat := m.statistics.allocatedObjects

/-- The method `top`. -/
def top (m : ActiveSetMemory) : Nat := m.topOfStack

/-- The method `getGrowthFactor`. -/
def getGrowthFactor (m : ActiveSetMemory) : Nat := m.growthFactor

/-- The method `setGrowthFactor`. -/
def setGrowthFactor (m : ActiveSetMemory) (factor : Nat) : ActiveSetMemory :=
  if factor ≠ 0 then { m with growthFactor := factor } else m

/-- The method `getPreservationFactor`. -/
def getPreservationFactor (m : ActiveSetMemory) : Nat := m.preservationFactor

/-- The method `setPreservationFactor`. -/
def setPreservationFactor (m : ActiveSetMemory) (factor : Nat) : ActiveSetMemory :=
  if factor < 101 then { m with preservationFactor := factor } else m

/-- The method `push`. -/
def push (m : ActiveSetMemory) : ActiveSetMemory :=
  { m with frames := m.topOfStack :: m.frames }

/-- The method `pop`. With no frame, `frames.back()` is undefined. -/
def pop (m : ActiveSetMemory) : Option ActiveSetMemory :=
  match m.frames with
  | [] => none
  | back :: rest =>
    let reclaimedMemory : Int := (m.topOfStack : Int) - (back : Int)
    some { m with
      topOfStack := back
      frames := rest
      statistics :=
        { m.statistics with
          usedMemorySize := sizeSub m.statistics.usedMemorySize (toSize reclaimedMemory) } }

/-- The method `gather`: the returned pointer and the state after the call. The pointer sums
`topOfStack + bytesToAllocate` and `pool.get() + capacity` wrap around at `2 ^ 64`. -/
def gather (m : ActiveSetMemory) (bytesToAllocate : Nat) : Nat × ActiveSetMemory :=
  if (m.topOfStack + bytesToAllocate) % sizeModulus > (m.pool.base + m.capacity) % sizeModulus
  then (nullptr, m)
  else
    (m.topOfStack,
      { m with
        topOfStack := (m.topOfStack + bytesToAllocate) % sizeModulus
        statistics :=
          { m.statistics with
            usedMemorySize := (m.statistics.usedMemorySize + bytesToAllocate) % sizeModulus } })

/-- The method `copy`; `original i` is the `i`-th byte at the address `original` of the
source. The `std::memcpy` is undefined when `gather` returned a range that is not inside
the pool block (the null pointer included). -/
def copy (m : ActiveSetMemory) (original : Nat → Nat) (size : Nat) :
    Option (Nat × ActiveSetMemory) :=
  let gathered := m.gather size
  match gathered.2.pool.write gathered.1 original size with
  | none => none
  | some written => some (gathered.1, { gathered.2 with pool := written })

/-- The method `mark`. The conversion of a quotient that is not an `unsigned int` to
`unsigned int`, and of a quotient of `2 ^ 31` or more to `int`, goes through `double` and is
undefined; so is `pages[pageIndex]` outside the reserved storage. -/
def mark (m : ActiveSetMemory) (destination size : Nat) : Option ActiveSetMemory :=
  let slabIndex : Int := Int.tdiv ((destination : Int) - (m.pool.base : Int)) (SlabSize : Int)
  let pageQuotient : Int := Int.tdiv slabIndex (PageSize : Int)
  let amountQuotient : Nat := size / SlabSize
  if pageQuotient < 0 ∨ pageQuotient ≥ (uintModulus : Int) ∨ amountQuotient ≥ 2 ^ 31 then none
  else
    let pageIndex : Nat := pageQuotient.toNat
    let slabAmount : Int := (amountQuotient : Int)
    if pageIndex ≤ m.pages.size then
      match m.pages.storage.get? pageIndex with
      | none => none
      | some page =>
        match page.markAsGarbageAt destination slabAmount with
        | none => none
        | some marked =>
          some { m with
            pages := { m.pages with storage := m.pages.storage.set pageIndex marked }
            statistics :=
              { m.statistics with
                garbageMemorySize := (m.statistics.garbageMemorySize + size) % sizeModulus } }
    else some m

/-- The private method `resize`; `allocation` is the address `std::make_unique` returns,
or `none` when it throws `std::bad_alloc`, which leaves the `noexcept` method and
terminates the program. The range-for loop walks the first `pages.size()` pages. -/
def resize (m : ActiveSetMemory) (newSize : Nat) (allocation : Option Nat) :
    Option ActiveSetMemory :=
  match allocation with
  | none => none
  | some base =>
    match resizeLoop m.pool newSize (m.pages.storage.take m.pages.size)
        (Buffer.fresh base newSize) 0 0 with
    | none => none
    | some (resizedPool, counter) =>
      some (initialisePages
        { m with
          topOfStack := resizedPool.base + counter
          statistics :=
            { m.statistics with allocatedMemorySize := newSize, usedMemorySize := counter }
          pool := resizedPool })

/-- The method `grow`. -/
def grow (m : ActiveSetMemory) (moreBytes : Nat) (allocation : Option Nat) :
    Option ActiveSetMemory :=
  if m.growthFactor = 1 ∧ moreBytes = 0 then some m
  else
    let normalGrowth : Nat := (m.statistics.allocatedMemorySize * m.growthFactor) % sizeModulus
    let newSizeInBytes : Nat :=
      max ((m.statistics.allocatedMemorySize + moreBytes) % sizeModulus) normalGrowth
    match m.resize newSizeInBytes allocation with
    | none => none
    | some resized =>
      some { resized with
        statistics :=
          { resized.statistics with growths := (resized.statistics.growths + 1) % uintModulus } }

/-- The method `reserve`. -/
def reserve (m : ActiveSetMemory) (reservedSizeInSlots : Nat) (allocation : Option Nat) :
    Option ActiveSetMemory :=
  if m.freeBytes < reservedSizeInSlots then m.grow reservedSizeInSlots allocation else some m

/-- The method `shrink`: the returned flag and the state after the call. -/
def shrink (m : ActiveSetMemory) (allocation : Option Nat) : Option (Bool × ActiveSetMemory) :=
  if m.preservationFactor = 100 then some (false, m)
  else
    let preservedMemorySize : Nat :=
      (m.preservationFactor / 100 * m.statistics.garbageMemorySize) % sizeModulus
    let reclaimedMemorySize : Nat := sizeSub m.statistics.garbageMemorySize preservedMemorySize
    let reducedPoolSize : Nat :=
      (sizeSub m.statistics.allocatedMemorySize m.statistics.garbageMemorySize
        + preservedMemorySize) % sizeModulus
    let reducedPoolWillBeTooSmall : Bool := decide (reclaimedMemorySize ≤ PageSize)
    if reducedPoolWillBeTooSmall then some (false, m)
    else
      match m.resize reducedPoolSize allocation with
      | none => none
      | some resized =>
        some (true,
          { resized with
            statistics :=
              { resized.statistics with
                shrinks := (resized.statistics.shrinks + 1) % uintModulus } })

/-- The method `clear`; `base` is the address of the block `std::make_unique` returns. -/
def clear (m : ActiveSetMemory) (base : Nat) : ActiveSetMemory :=
  { m with
    growthFactor := InitialGrowthFactor
    preservationFactor := InitialPreservationFactor
    statistics :=
      { usedMemorySize := 0, garbageMemorySize := 0, allocatedMemorySize := DefaultStackSize,
        allocatedObjects := 0, growths := 0, shrinks := 0 }
    pool := Buffer.fresh base DefaultStackSize
    topOfStack := base }

end ActiveSetMemory

/-! ## Top-level API (`givers/memory.cc`)

`select<ActiveSetMemory>()` resolves the pool of the calling thread; the functions below take
that pool as an argument and return it with the result. -/

/-- The function `gather(size, lifetime)`. -/
def gather (memory : ActiveSetMemory) (size : Nat) (lifetime : GarbageCollectionGeneration) :
    GarbageCollected × ActiveSetMemory :=
  let gathered := memory.gather size
  ({ capacity := size, destination := gathered.1, lifetime := lifetime }, gathered.2)

/-- The function `split`. -/
def split (memory : ActiveSetMemory) : ActiveSetMemory := memory.push

/-- The function `untie`. -/
def untie (memory : ActiveSetMemory) : Option ActiveSetMemory := memory.pop

/-- Whether the byte ranges `[first, first + firstSize)` and `[second, second + secondSize)`
share a byte. -/
def rangesOverlap (first firstSize second secondSize : Nat) : Bool :=
  decide (first < second + secondSize) && decide (second < first + firstSize)

/-- The function `clone(original)`. The source of the `std::memcpy` in `copy` is the range
of the handle, read from the pool block; the call is undefined when that range is not inside
the block or overlaps the destination. -/
def clone (memory : ActiveSetMemory) (original : GarbageCollected) :
    Option (GarbageCollected × ActiveSetMemory) :=
  if original.capacity ≠ 0 ∧
      rangesOverlap (memory.gather original.capacity).1 original.capacity
        original.destination original.capacity then none
  else
    match memory.pool.read original.destination original.capacity with
    | none => none
    | some source =>
      match memory.copy source original.capacity with
      | none => none
      | some (destination, after) =>
        some ({ capacity := original.capacity, destination := destination,
                lifetime := original.lifetime }, after)

/-- The overload `clone(original, lifetime)`. -/
def cloneAs (memory : ActiveSetMemory) (original : GarbageCollected)
    (lifetime : GarbageCollectionGeneration) : Option (GarbageCollected × ActiveSetMemory) :=
  if original.capacity ≠ 0 ∧
      rangesOverlap (memory.gather original.capacity).1 original.capacity
        original.destination original.capacity then none
  else
    match memory.pool.read original.destination original.capacity with
    | none => none
    | some source =>
      match memory.copy source original.capacity with
      | none => none
      | some (destination, after) =>
        some ({ capacity := original.capacity, destination := destination,
                lifetime := lifetime }, after)

/-- The function `mark(target)`. -/
def mark (memory : ActiveSetMemory) (target : GarbageCollected) : Option ActiveSetMemory :=
  memory.mark target.destination target.capacity

/-- The function `generateGarbageCollectionSummary`. -/
def generateGarbageCollectionSummary (previousStatistics : MemoryUsageStatistics)
    (memory : ActiveSetMemory) : GarbageCollectionSummary :=
  let currentStatistics : MemoryUsageStatistics := memory.getMemoryUsage
  let reclaimedMemory : Nat :=
    sizeSub previousStatistics.allocatedMemorySize currentStatistics.allocatedMemorySize
  let aliveMemory : Nat := currentStatistics.usedMemorySize
  { reclaimedMemoryInBytes := reclaimedMemory, aliveMemoryInBytes := aliveMemory }

/-- The function `collect(level, extraAvailableMemoryNextRound)`. The `switch` has no
`break`: the cases `Eden`, `Young` and `Elder` call `pop()` and fall through to the
statements of the cases `Antique` and `Pernament`. At most one of `shrink` and `grow` runs,
so one allocator answer is enough. -/
def collect (memory : ActiveSetMemory) (level : GarbageCollectionGeneration)
    (extraAvailableMemoryNextRound : Nat) (allocation : Option Nat) :
    Option (GarbageCollectionSummary × ActiveSetMemory) :=
  let previousStatistics : MemoryUsageStatistics := memory.getMemoryUsage
  let popped : Option ActiveSetMemory :=
    match level with
    | .Eden => memory.pop
    | .Young => memory.pop
    | .Elder => memory.pop
    | .Antique => some memory
    | .Pernament => some memory
  match popped with
  | none => none
  | some current =>
    let reclaimedMemory : Nat :=
      sizeSub previousStatistics.allocatedMemorySize previousStatistics.garbageMemorySize
    let availableMemoryAfterGarbageCollection : Nat :=
      (reclaimedMemory + previousStatistics.usedMemorySize) % sizeModulus
    let resized : Option ActiveSetMemory :=
      if availableMemoryAfterGarbageCollection > extraAvailableMemoryNextRound then
        (current.shrink allocation).map Prod.snd
      else current.grow extraAvailableMemoryNextRound allocation
    match resized with
    | none => none
    | some after => some (generateGarbageCollectionSummary previousStatistics after, after)

/-! ## Scenario drivers -/

/-- Runs `gather` for each size of the list in turn, stopping with `none` at the first call
that returns the null pointer. -/
def gatherAll (m : ActiveSetMemory) : List Nat → Option ActiveSetMemory
  | [] => some m
  | size :: rest =>
    if (m.gather size).1 = nullptr then none else gatherAll (m.gather size).2 rest

/-- The state of a pool in which only `gather` has run since construction and no pointer
sum has wrapped around: the top of the stack is `usedMemorySize` bytes above the start of
the block, inside the block, and nothing else has moved. -/
def OnlyGathered (m : ActiveSetMemory) : Prop :=
  m.topOfStack = m.pool.base + m.statistics.usedMemorySize ∧
  m.statistics.usedMemorySize ≤ DefaultStackSize ∧
  m.capacity = DefaultStackSize ∧
  m.statistics.garbageMemorySize = 0 ∧
  m.statistics.allocatedMemorySize = DefaultStackSize ∧
  m.statistics.allocatedObjects = 0 ∧
  m.statistics.growths = 0 ∧
  m.statistics.shrinks = 0

/-- The pool states that a program can produce: a constructed pool, followed by any calls of
the public methods that return normally. The allocator may answer any address. -/
inductive Reachable : ActiveSetMemory → Prop
  | construct (base : Nat) : Reachable (ActiveSetMemory.construct base)
  | gather (m : ActiveSetMemory) (bytesToAllocate : Nat) :
    Reachable m → Reachable (m.gather bytesToAllocate).2
  | copy (m after : ActiveSetMemory) (original : Nat → Nat) (size destination : Nat) :
    Reachable m → m.copy original size = some (destination, after) → Reachable after
  | mark (m after : ActiveSetMemory) (destination size : Nat) :
    Reachable m → m.mark destination size = some after → Reachable after
  | push (m : ActiveSetMemory) : Reachable m → Reachable m.push
  | pop (m after : ActiveSetMemory) : Reachable m → m.pop = some after → Reachable after
  | grow (m after : ActiveSetMemory) (moreBytes : Nat) (allocation : Option Nat) :
    Reachable m → m.grow moreBytes allocation = some after → Reachable after
  | reserve (m after : ActiveSetMemory) (reservedSizeInSlots : Nat) (allocation : Option Nat) :
    Reachable m → m.reserve reservedSizeInSlots allocation = some after → Reachable after
  | shrink (m after : ActiveSetMemory) (allocation : Option Nat) (shrunk : Bool) :
    Reachable m → m.shrink allocation = some (shrunk, after) → Reachable after
  | setGrowthFactor (m : ActiveSetMemory) (factor : Nat) :
    Reachable m → Reachable (m.setGrowthFactor factor)
  | setPreservationFactor (m : ActiveSetMemory) (factor : Nat) :
    Reachable m → Reachable (m.setPreservationFactor factor)

/-- A fresh pool (block at 4096) on which 5000 bytes were gathered and then marked as
garbage. -/
def markedPool : ActiveSetMemory :=
  (((ActiveSetMemory.construct 4096).gather 5000).2.mark 4096 5000).getD
    (ActiveSetMemory.construct 4096)

/-- The pool `markedPool` after a `shrink()` whose new block is at 1048576. -/
def shrunkPool : ActiveSetMemory :=
  ((markedPool.shrink (some 1048576)).map Prod.snd).getD markedPool

/-- A fresh pool (block at 4096) after `grow(moreBytes)` whose new block is at 1048576. -/
def grownPool (moreBytes : Nat) : ActiveSetMemory :=
  ((ActiveSetMemory.construct 4096).grow moreBytes (some 1048576)).getD
    (ActiveSetMemory.construct 4096)

/-- A fresh pool (block at 4096) on which 60000 bytes were gathered and the gathered range
was then marked as garbage twice. -/
def doubleMarkedPool : ActiveSetMemory :=
  (((((ActiveSetMemory.construct 4096).gather 60000).2.mark 4096 60000).getD
      (ActiveSetMemory.construct 4096)).mark 4096 60000).getD
    (ActiveSetMemory.construct 4096)

/-- A page tracker with origin 4096 in whose bitmask all `SlabSize` bits are set. No method
of the class sets a bit; the state serves to observe what the methods do to set bits. -/
def allAlivePage : GarbageBitsetPage :=
  { GarbageBitsetPage.create 4096 with bitmask := 2 ^ SlabSize - 1 }

/-- The page `allAlivePage` after `markAsGarbage(3, 2)`: every bit of the bitmask is set
except the bits 3 and 4. -/
def twoSlabsMarkedPage : GarbageBitsetPage :=
  (allAlivePage.markAsGarbage 3 2).getD allAlivePage

/-- A freshly constructed page with origin 4096 after `markAsGarbage(3, 2)`. -/
def freshMarkedPage : GarbageBitsetPage :=
  ((GarbageBitsetPage.create 4096).markAsGarbage 3 2).getD (GarbageBitsetPage.create 4096)

/-- The page `twoSlabsMarkedPage` with the alive cursor at slab 3. -/
def aliveCursorAtThreePage : GarbageBitsetPage :=
  { twoSlabsMarkedPage with yieldingAliveSlabIndex := 3 }

/-- The page `twoSlabsMarkedPage` with the garbage cursor at slab 5: from the cursor on,
every bit up to the last one of the bitmask is set. -/
def garbageCursorAtFivePage : GarbageBitsetPage :=
  { twoSlabsMarkedPage with yieldingGarbageSlabIndex := 5 }

/-- A fresh pool (block at 4096) after `push()`, `grow(0)` with the new block at 1048576,
and the matching `pop()`. -/
def poppedAfterGrowPool : ActiveSetMemory :=
  (((ActiveSetMemory.construct 4096).push.grow 0 (some 1048576)).bind
      ActiveSetMemory.pop).getD (ActiveSetMemory.construct 4096)

/-- A fresh pool (block at 4096) after `gather(100)`, `push()` and `gather(50)`: the frame
marker is 100 bytes above the start of the block. -/
def framedPool : ActiveSetMemory :=
  (((ActiveSetMemory.construct 4096).gather 100).2.push.gather 50).2

/-- The pool `markedPool` (5000 bytes gathered and marked as garbage) after `push()` and
`gather(50)`: the frame marker is 5000 bytes above the start of the block. -/
def markedFramedPool : ActiveSetMemory :=
  (markedPool.push.gather 50).2

/-- The relation that the methods keep between the top of the stack and the statistics: the
difference `top() - pool.get()`, converted to `size_t`, is `usedMemorySize`, and
`allocatedObjects` is still zero. -/
def Lockstep (m : ActiveSetMemory) : Prop :=
  toSize ((m.topOfStack : Int) - (m.pool.base : Int)) = m.statistics.usedMemorySize ∧
  m.statistics.allocatedObjects = 0

/-- The pool with the bitmask of every page tracker replaced by the bitmask in which all
`SlabSize` bits are set. No method of the class sets a bit; the state serves to observe which
bits a call resets. -/
def withAllBitsSet (m : ActiveSetMemory) : ActiveSetMemory :=
  { m with
    pages :=
      { m.pages with
        storage := m.pages.storage.map (fun page => { page with bitmask := 2 ^ SlabSize - 1 }) } }

/-! ## Properties of `gather`, `push` and `pop` -/

/-- A `gather` that returns a pointer other than null took the allocating branch. -/
theorem gather_of_ne_null (m : ActiveSetMemory) (n : Nat) (h : (m.gather n).1 ≠ nullptr) :
    (m.topOfStack + n) % sizeModulus ≤ (m.pool.base + m.capacity) % sizeModulus ∧
    m.gather n =
      (m.topOfStack,
        { m with
          topOfStack := (m.topOfStack + n) % sizeModulus
          statistics :=
            { m.statistics with
              usedMemorySize := (m.statistics.usedMemorySize + n) % sizeModulus } }) := by
  unfold ActiveSetMemory.gather at h ⊢
  by_cases hfit : (m.topOfStack + n) % sizeModulus > (m.pool.base + m.capacity) % sizeModulus
  · simp [hfit] at h
  · rw [if_neg hfit]
    exact ⟨by omega, rfl⟩

/-- A `gather` whose request fits below `pool + capacity`, the address `pool + capacity`
lying in the address space, allocates, and no pointer sum wraps around. -/
theorem gather_of_fits (m : ActiveSetMemory) (n : Nat)
    (h : m.topOfStack + n ≤ m.pool.base + m.capacity)
    (hend : m.pool.base + m.capacity < sizeModulus) :
    m.gather n =
      (m.topOfStack,
        { m with
          topOfStack := m.topOfStack + n
          statistics :=
            { m.statistics with
              usedMemorySize := (m.statistics.usedMemorySize + n) % sizeModulus } }) := by
  unfold ActiveSetMemory.gather
  rw [Nat.mod_eq_of_lt (show m.topOfStack + n < sizeModulus by omega), Nat.mod_eq_of_lt hend,
    if_neg (by omega)]

/-- The call `gather` never replaces the pool block. -/
theorem gather_pool (m : ActiveSetMemory) (n : Nat) : (m.gather n).2.pool = m.pool := by
  unfold ActiveSetMemory.gather; split <;> rfl

/-- The call `gather` never changes `capacity`. -/
theorem gather_capacity (m : ActiveSetMemory) (n : Nat) :
    (m.gather n).2.capacity = m.capacity := by
  unfold ActiveSetMemory.gather; split <;> rfl

/-- The pointer a fitting `gather` returns. -/
theorem gather_fst_of_fits (m : ActiveSetMemory) (n : Nat)
    (h : m.topOfStack + n ≤ m.pool.base + m.capacity)
    (hend : m.pool.base + m.capacity < sizeModulus) : (m.gather n).1 = m.topOfStack := by
  rw [gather_of_fits m n h hend]

/-- The top of the stack after a fitting `gather`. -/
theorem gather_top_of_fits (m : ActiveSetMemory) (n : Nat)
    (h : m.topOfStack + n ≤ m.pool.base + m.capacity)
    (hend : m.pool.base + m.capacity < sizeModulus) :
    (m.gather n).2.topOfStack = m.topOfStack + n := by
  rw [gather_of_fits m n h hend]

/-- A freshly constructed pool is in the state `OnlyGathered`. -/
theorem onlyGathered_construct (base : Nat) : OnlyGathered (ActiveSetMemory.construct base) :=
  ⟨rfl, Nat.zero_le _, rfl, rfl, rfl, rfl, rfl, rfl⟩

/-- A successful `gather` whose pointer sum cannot wrap around keeps `OnlyGathered`, adds
the size to `usedMemorySize`, returns the old top and moves the top by the size. -/
theorem onlyGathered_step (m : ActiveSetMemory) (n : Nat) (hm : OnlyGathered m)
    (hn : m.pool.base + DefaultStackSize + n < sizeModulus)
    (h : (m.gather n).1 ≠ nullptr) :
    OnlyGathered (m.gather n).2 ∧
    (m.gather n).2.statistics =
      { m.statistics with usedMemorySize := m.statistics.usedMemorySize + n } ∧
    (m.gather n).1 = m.topOfStack ∧
    (m.gather n).2.topOfStack = m.topOfStack + n := by
  obtain ⟨hfit, heq⟩ := gather_of_ne_null m n h
  obtain ⟨htop, hle, hcap, hg, ha, ho, hgr, hsh⟩ := hm
  have htopsmall : m.topOfStack + n < sizeModulus := by omega
  have hend : m.pool.base + m.capacity < sizeModulus := by omega
  rw [Nat.mod_eq_of_lt htopsmall, Nat.mod_eq_of_lt hend] at hfit
  have hsmall : m.statistics.usedMemorySize + n < sizeModulus := by omega
  rw [heq]
  simp only [OnlyGathered, Nat.mod_eq_of_lt hsmall, Nat.mod_eq_of_lt htopsmall]
  exact ⟨⟨by omega, by omega, hcap, hg, ha, ho, hgr, hsh⟩, trivial, trivial, trivial⟩

/-- A run of successful `gather` calls none of whose pointer sums can wrap around keeps
`OnlyGathered` and adds up the sizes. -/
theorem gatherAll_onlyGathered (sizes : List Nat) :
    ∀ m0 m : ActiveSetMemory, OnlyGathered m0 →
      (∀ n ∈ sizes, m0.pool.base + DefaultStackSize + n < sizeModulus) →
      gatherAll m0 sizes = some m →
      OnlyGathered m ∧
      m.statistics =
        { m0.statistics with usedMemorySize := m0.statistics.usedMemorySize + sizes.sum } := by
  induction sizes with
  | nil =>
    intro m0 m h0 _ h
    simp [gatherAll] at h
    subst h
    exact ⟨h0, by simp⟩
  | cons n rest ih =>
    intro m0 m h0 hsizes h
    unfold gatherAll at h
    by_cases hnull : (m0.gather n).1 = nullptr
    · simp [hnull] at h
    · simp only [hnull, if_false] at h
      obtain ⟨h1, hstat, -, -⟩ :=
        onlyGathered_step m0 n h0 (hsizes n (List.mem_cons_self n rest)) hnull
      have hrest : ∀ k ∈ rest, (m0.gather n).2.pool.base + DefaultStackSize + k < sizeModulus := by
        intro k hk
        rw [gather_pool]
        exact hsizes k (List.mem_cons_of_mem n hk)
      obtain ⟨h2, hsum⟩ := ih _ _ h1 hrest h
      refine ⟨h2, ?_⟩
      rw [hsum, hstat, List.sum_cons]
      simp only [Nat.add_assoc]

/-! ## Claims C1 to C4: bump allocation and scope frames -/

open ActiveSetMemory in
/-- Claim C1, the code evaluated at the failing input. On a fresh pool (block at 4096),
`gather(5000)`, `mark` of that range and `shrink()` (new block at 1048576) leave a pool with
`freeBytes() == 95000` whose `capacity` field is still 100000; `gather(96000)`, which asks
for more than `freeBytes()`, then returns the non-null pointer 1048576, sets
`usedMemorySize` to 96000 and moves the top by 96000. -/
theorem gather_past_freeBytes_after_shrink :
    (do
      let gathered := (construct 4096).gather 5000
      let marked ← gathered.2.mark gathered.1 5000
      let shrunk ← marked.shrink (some 1048576)
      let again := shrunk.2.gather 96000
      pure (shrunk.1, shrunk.2.freeBytes, shrunk.2.capacity, shrunk.2.top, again.1,
        again.2.statistics.usedMemorySize, again.2.top))
      = some (true, 95000, 100000, 1048576, 1048576, 96000, 1048576 + 96000) := by
  rfl

open ActiveSetMemory in
/-- The sum law of `gather` for the requests whose pointer sum cannot wrap around. If
every `gather` of a sequence of such requests run on a freshly constructed pool succeeds,
then afterwards `usedMemorySize` is the sum of the requested sizes and every other
statistics field has its initial value; and each further successful `gather(n)` of that
kind adds exactly `n` to `usedMemorySize` and changes no other statistics field. -/
theorem gather_sequence_without_wrap (base : Nat) (sizes : List Nat) (m : ActiveSetMemory)
    (hsizes : ∀ n ∈ sizes, base + DefaultStackSize + n < sizeModulus)
    (h : gatherAll (construct base) sizes = some m) :
    m.statistics = { (construct base).statistics with usedMemorySize := sizes.sum } ∧
    ∀ n : Nat, base + DefaultStackSize + n < sizeModulus → (m.gather n).1 ≠ nullptr →
      (m.gather n).2.statistics =
        { m.statistics with usedMemorySize := m.statistics.usedMemorySize + n } := by
  obtain ⟨hinv, hsum⟩ :=
    gatherAll_onlyGathered sizes _ m (onlyGathered_construct base) hsizes h
  have hpool : ∀ (l : List Nat) (m0 m1 : ActiveSetMemory),
      gatherAll m0 l = some m1 → m1.pool = m0.pool := by
    intro l
    induction l with
    | nil =>
      intro m0 m1 h1
      simp [gatherAll] at h1
      rw [h1]
    | cons k rest ih =>
      intro m0 m1 h1
      unfold gatherAll at h1
      split at h1
      · simp at h1
      · rw [ih _ _ h1, gather_pool]
  constructor
  · have h0 : (construct base).statistics.usedMemorySize = 0 := rfl
    rw [hsum, h0, Nat.zero_add]
  · intro n hn hne
    have hb : m.pool.base = base := by rw [hpool sizes _ m h]; rfl
    exact (onlyGathered_step m n hinv (by rw [hb]; exact hn) hne).2.1

open ActiveSetMemory in
/-- Claim C2, the code evaluated at the failing input. On a fresh pool (block at 4096),
`gather(1000)` and `gather(2 ^ 64 - 1)` both return a pointer other than null, the second
because the pointer sum `top + (2 ^ 64 - 1)` wraps around to `top - 1`, which passes the
bound check. The requested sizes sum to `2 ^ 64 + 999`; `usedMemorySize` is 999 afterwards,
and the second call has lowered it from 1000 to 999. -/
theorem gather_sequence_wraps_around :
    ((construct 4096).gather 1000).1 = 4096 ∧
    ((construct 4096).gather 1000).2.statistics.usedMemorySize = 1000 ∧
    (((construct 4096).gather 1000).2.gather (sizeModulus - 1)).1 = 4096 + 1000 ∧
    (gatherAll (construct 4096) [1000, sizeModulus - 1]).map
        (fun m => m.statistics.usedMemorySize) = some 999 ∧
    [1000, sizeModulus - 1].sum = sizeModulus + 999 := by
  refine ⟨rfl, rfl, by decide, by decide, by decide⟩

/-- Contiguity of `gather` for the requests whose pointer sum does not wrap around. A
successful `gather(n)` with `top + n` below `2 ^ 64` returns the value `top()` had before
the call and leaves `top()` at the returned address plus `n`; a successful `gather` that
follows it returns the first address plus `n`. -/
theorem gather_contiguous_without_wrap (m : ActiveSetMemory) (n : Nat)
    (hwrap : m.topOfStack + n < sizeModulus) (h : (m.gather n).1 ≠ nullptr) :
    (m.gather n).1 = m.top ∧
    (m.gather n).2.top = (m.gather n).1 + n ∧
    (∀ k : Nat, ((m.gather n).2.gather k).1 ≠ nullptr →
      ((m.gather n).2.gather k).1 = (m.gather n).1 + n) := by
  obtain ⟨-, heq⟩ := gather_of_ne_null m n h
  rw [Nat.mod_eq_of_lt hwrap] at heq
  refine ⟨by rw [heq]; rfl, by rw [heq]; rfl, ?_⟩
  intro k hk
  obtain ⟨-, heq2⟩ := gather_of_ne_null _ k hk
  rw [heq2, heq]

open ActiveSetMemory in
/-- The scenario of the test `gatheringExactMemoryBoundary`: on a fresh pool whose block
lies in the address space, `gather(400)`, `gather(500)`, `gather(4)` return pointers whose
differences are 400 and 500. -/
theorem gather_differences_of_test (base : Nat) (hend : base + DefaultStackSize < sizeModulus) :
    ((((construct base).gather 400).2.gather 500).1 : Int)
      - ((construct base).gather 400).1 = 400 ∧
    (((((construct base).gather 400).2.gather 500).2.gather 4).1 : Int)
      - (((construct base).gather 400).2.gather 500).1 = 500 := by
  have htop : (construct base).topOfStack = base := rfl
  have hbase : (construct base).pool.base = base := rfl
  have hcap : (construct base).capacity = DefaultStackSize := rfl
  have hdef : DefaultStackSize = 100000 := rfl
  have f1 : (construct base).topOfStack + 400
      ≤ (construct base).pool.base + (construct base).capacity := by omega
  have e1 : (construct base).pool.base + (construct base).capacity < sizeModulus := by omega
  have p1 := gather_fst_of_fits _ _ f1 e1
  have t1 := gather_top_of_fits _ _ f1 e1
  have f2 : ((construct base).gather 400).2.topOfStack + 500
      ≤ ((construct base).gather 400).2.pool.base + ((construct base).gather 400).2.capacity := by
    rw [gather_pool, gather_capacity]; omega
  have e2 : ((construct base).gather 400).2.pool.base + ((construct base).gather 400).2.capacity
      < sizeModulus := by
    rw [gather_pool, gather_capacity]; omega
  have p2 := gather_fst_of_fits _ _ f2 e2
  have t2 := gather_top_of_fits _ _ f2 e2
  have f3 : (((construct base).gather 400).2.gather 500).2.topOfStack + 4
      ≤ (((construct base).gather 400).2.gather 500).2.pool.base
        + (((construct base).gather 400).2.gather 500).2.capacity := by
    rw [gather_pool, gather_capacity, gather_pool, gather_capacity]; omega
  have e3 : (((construct base).gather 400).2.gather 500).2.pool.base
      + (((construct base).gather 400).2.gather 500).2.capacity < sizeModulus := by
    rw [gather_pool, gather_capacity, gather_pool, gather_capacity]; omega
  have p3 := gather_fst_of_fits _ _ f3 e3
  omega

open ActiveSetMemory in
/-- Claim C3, the code evaluated at the failing input. On a fresh pool (block at 4096),
`gather(2 ^ 64 - 1)` passes the bound check, because the pointer sum wraps around to 4095,
and returns the old top 4096; it leaves `top()` at 4095, one byte below the returned
address and below the start of the block, not at the returned address plus the size. The
`gather(8)` that follows succeeds and returns 4095: the two addresses differ by -1. -/
theorem gather_wraps_below_the_block :
    ((construct 4096).gather (sizeModulus - 1)).1 = 4096 ∧
    ((construct 4096).gather (sizeModulus - 1)).2.top = 4095 ∧
    ((construct 4096).gather (sizeModulus - 1)).2.top
      ≠ ((construct 4096).gather (sizeModulus - 1)).1 + (sizeModulus - 1) ∧
    (((construct 4096).gather (sizeModulus - 1)).2.gather 8).1 = 4095 ∧
    ((((construct 4096).gather (sizeModulus - 1)).2.gather 8).1 : Int)
      - (((construct 4096).gather (sizeModulus - 1)).1 : Int) = -1 := by
  refine ⟨rfl, by decide, by decide, by decide, by decide⟩

/-- Claim C4. For every pool state (its `usedMemorySize` being a `size_t`) and all sizes
`a` and `b`, whether or not the gathers succeed, `push(); gather(a); gather(b); pop()`
returns the pool to the state before the `push`: `usedMemorySize`, the top pointer, the
frame markers and every other field. The same holds for `split()` and `untie()` around two
top-level `gather` calls. -/
theorem push_gather_gather_pop (m : ActiveSetMemory) (a b : Nat)
    (hused : m.statistics.usedMemorySize < sizeModulus) :
    ((m.push.gather a).2.gather b).2.pop = some m ∧
    ∀ first second : GarbageCollectionGeneration,
      untie (gather (gather (split m) a first).2 b second).2 = some m := by
  have key : ((m.push.gather a).2.gather b).2.pop = some m := by
    obtain ⟨top, frames, pool, pages, ⟨u, g, al, o, gr, sh⟩, gf, pf, cap⟩ := m
    simp only at hused
    simp only [ActiveSetMemory.push, ActiveSetMemory.gather]
    split_ifs <;>
      simp [ActiveSetMemory.pop, nullptr, sizeSub, toSize] <;>
      simp only [sizeModulus] at * <;> omega
  exact ⟨key, fun _ _ => key⟩

open ActiveSetMemory in
/-- Claim C4 at a concrete input: a fresh pool, a `gather(40)` that succeeds and a
`gather(200000)` that does not. -/
theorem push_gather_gather_pop_witness :
    (construct 4096).statistics.usedMemorySize < sizeModulus ∧
    (((construct 4096).push.gather 40).2.gather 200000).2.pop = some (construct 4096) :=
  ⟨by decide, (push_gather_gather_pop (construct 4096) 40 200000 (by decide)).1⟩

/-! ## Properties of `resize`, `grow` and `shrink` -/

/-- The statistics of a constructed pool. -/
theorem construct_statistics (base : Nat) :
    (ActiveSetMemory.construct base).statistics =
      { usedMemorySize := 0, garbageMemorySize := 0, allocatedMemorySize := 100000,
        allocatedObjects := 0, growths := 0, shrinks := 0 } := rfl

/-- The growth factor of a constructed pool. -/
theorem construct_growthFactor (base : Nat) :
    (ActiveSetMemory.construct base).growthFactor = 2 := rfl

/-- The page vector of a constructed pool has logical size zero. -/
theorem construct_pages_size (base : Nat) :
    (ActiveSetMemory.construct base).pages.size = 0 := rfl

/-- With no page in the logical range of the vector, the loop of `resize` copies nothing:
the new block stays all zero, `usedMemorySize` becomes zero and the top of the stack is the
start of the new block. -/
theorem resize_of_no_pages (m : ActiveSetMemory) (newSize base : Nat)
    (hpages : m.pages.size = 0) :
    m.resize newSize (some base) =
      some (ActiveSetMemory.initialisePages
        { m with
          topOfStack := base
          statistics :=
            { m.statistics with allocatedMemorySize := newSize, usedMemorySize := 0 }
          pool := Buffer.fresh base newSize }) := by
  simp [ActiveSetMemory.resize, hpages, resizeLoop, Buffer.fresh]

/-- What `resize` leaves alone, the size it records and the page vector it builds. -/
theorem resize_fields (m r : ActiveSetMemory) (newSize : Nat) (allocation : Option Nat)
    (h : m.resize newSize allocation = some r) :
    r.pages.size = 0 ∧ r.preservationFactor = m.preservationFactor ∧
    r.growthFactor = m.growthFactor ∧ r.capacity = m.capacity ∧ r.frames = m.frames ∧
    r.statistics.allocatedMemorySize = newSize ∧
    r.statistics.garbageMemorySize = m.statistics.garbageMemorySize ∧
    r.statistics.growths = m.statistics.growths ∧
    r.statistics.shrinks = m.statistics.shrinks := by
  unfold ActiveSetMemory.resize at h
  cases allocation with
  | none => simp at h
  | some base =>
    simp only at h
    split at h
    · simp at h
    · simp only [Option.some.injEq] at h
      subst h
      simp [ActiveSetMemory.initialisePages]

/-- What `grow` leaves alone, and the bound on the size it records. -/
theorem grow_fields (m after : ActiveSetMemory) (moreBytes : Nat) (allocation : Option Nat)
    (h : m.grow moreBytes allocation = some after)
    (hsize : m.statistics.allocatedMemorySize < sizeModulus) (hpages : m.pages.size = 0) :
    after.pages.size = 0 ∧ after.preservationFactor = m.preservationFactor ∧
    after.capacity = m.capacity ∧ after.statistics.allocatedMemorySize < sizeModulus := by
  unfold ActiveSetMemory.grow at h
  split at h
  · simp only [Option.some.injEq] at h
    subst h
    exact ⟨hpages, rfl, rfl, hsize⟩
  · simp only at h
    split at h
    · simp at h
    · rename_i resized hres
      simp only [Option.some.injEq] at h
      subst h
      obtain ⟨h1, h2, -, h4, -, h6, -⟩ := resize_fields _ _ _ _ hres
      refine ⟨h1, h2, h4, ?_⟩
      show resized.statistics.allocatedMemorySize < sizeModulus
      rw [h6]
      exact max_lt (Nat.mod_lt _ (by decide)) (Nat.mod_lt _ (by decide))

/-- The fields that every public method maintains: the page vector has logical size zero,
the preservation factor is at most 100, `capacity` is `DefaultStackSize` and the allocated
size is a `size_t`. -/
theorem reachable_invariants (m : ActiveSetMemory) (h : Reachable m) :
    m.pages.size = 0 ∧ m.preservationFactor ≤ 100 ∧ m.capacity = DefaultStackSize ∧
    m.statistics.allocatedMemorySize < sizeModulus := by
  induction h with
  | construct base =>
    exact ⟨rfl, Nat.zero_le 100, rfl, by rw [construct_statistics]; decide⟩
  | gather m n _ ih =>
    unfold ActiveSetMemory.gather
    split <;> exact ih
  | copy m after original size destination _ hcopy ih =>
    unfold ActiveSetMemory.copy at hcopy
    simp only at hcopy
    split at hcopy
    · simp at hcopy
    · simp only [Option.some.injEq, Prod.mk.injEq] at hcopy
      obtain ⟨-, rfl⟩ := hcopy
      unfold ActiveSetMemory.gather
      split <;> exact ih
  | mark m after destination size _ hmark ih =>
    unfold ActiveSetMemory.mark at hmark
    simp only at hmark
    split at hmark
    · simp at hmark
    · split at hmark
      · split at hmark
        · simp at hmark
        · split at hmark
          · simp at hmark
          · simp only [Option.some.injEq] at hmark
            subst hmark
            exact ih
      · simp only [Option.some.injEq] at hmark
        subst hmark
        exact ih
  | push m _ ih => exact ih
  | pop m after _ hpop ih =>
    unfold ActiveSetMemory.pop at hpop
    split at hpop
    · simp at hpop
    · simp only [Option.some.injEq] at hpop
      subst hpop
      exact ih
  | grow m after moreBytes allocation _ hgrow ih =>
    obtain ⟨h1, h2, h3, h4⟩ := grow_fields _ _ _ _ hgrow ih.2.2.2 ih.1
    exact ⟨h1, h2 ▸ ih.2.1, h3 ▸ ih.2.2.1, h4⟩
  | reserve m after n allocation _ hres ih =>
    unfold ActiveSetMemory.reserve at hres
    split at hres
    · obtain ⟨h1, h2, h3, h4⟩ := grow_fields _ _ _ _ hres ih.2.2.2 ih.1
      exact ⟨h1, h2 ▸ ih.2.1, h3 ▸ ih.2.2.1, h4⟩
    · simp only [Option.some.injEq] at hres
      subst hres
      exact ih
  | shrink m after allocation shrunk _ hshrink ih =>
    unfold ActiveSetMemory.shrink at hshrink
    split at hshrink
    · simp only [Option.some.injEq, Prod.mk.injEq] at hshrink
      obtain ⟨-, rfl⟩ := hshrink
      exact ih
    · simp only at hshrink
      split at hshrink
      · simp only [Option.some.injEq, Prod.mk.injEq] at hshrink
        obtain ⟨-, rfl⟩ := hshrink
        exact ih
      · split at hshrink
        · simp at hshrink
        · rename_i resized hr
          simp only [Option.some.injEq, Prod.mk.injEq] at hshrink
          obtain ⟨-, rfl⟩ := hshrink
          obtain ⟨h1, h2, -, h4, -, h6, -⟩ := resize_fields _ _ _ _ hr
          refine ⟨h1, h2 ▸ ih.2.1, h4 ▸ ih.2.2.1, ?_⟩
          show resized.statistics.allocatedMemorySize < sizeModulus
          rw [h6]
          exact Nat.mod_lt _ (by decide)
  | setGrowthFactor m factor _ ih =>
    unfold ActiveSetMemory.setGrowthFactor
    split <;> exact ih
  | setPreservationFactor m factor _ ih =>
    unfold ActiveSetMemory.setPreservationFactor
    split
    · rename_i hf
      exact ⟨ih.1, by simp only; omega, ih.2.2⟩
    · exact ih

/-- The pool `markedPool` is reachable: construct, `gather(5000)`, `mark` of that range. -/
theorem reachable_markedPool : Reachable markedPool :=
  Reachable.mark _ markedPool 4096 5000
    (Reachable.gather _ 5000 (Reachable.construct 4096)) rfl

/-- The allocated size and the growth counter after a `grow` that is not the no-op case,
when no page is in the logical range of the vector and nothing overflows. -/
theorem grow_statistics (m : ActiveSetMemory) (extraBytes base : Nat)
    (hpages : m.pages.size = 0) (hno : ¬ (m.growthFactor = 1 ∧ extraBytes = 0))
    (hmul : m.statistics.allocatedMemorySize * m.growthFactor < sizeModulus)
    (hadd : m.statistics.allocatedMemorySize + extraBytes < sizeModulus)
    (hgr : m.statistics.growths + 1 < uintModulus) :
    (m.grow extraBytes (some base)).map
        (fun grown => (grown.statistics.allocatedMemorySize, grown.statistics.growths))
      = some (max (m.statistics.allocatedMemorySize * m.growthFactor)
          (m.statistics.allocatedMemorySize + extraBytes), m.statistics.growths + 1) := by
  unfold ActiveSetMemory.grow
  rw [if_neg hno]
  simp only [resize_of_no_pages m _ base hpages, ActiveSetMemory.initialisePages,
    Nat.mod_eq_of_lt hmul, Nat.mod_eq_of_lt hadd, Nat.mod_eq_of_lt hgr, Option.map_some',
    max_comm]

/-- The result of `shrink` when the preservation factor is below 100, more than a page of
garbage is recorded and no page is in the logical range of the vector: the division
`preservationFactor / 100` is zero, so the whole recorded garbage is released. -/
theorem shrink_statistics (m : ActiveSetMemory) (base : Nat)
    (hpages : m.pages.size = 0) (hp : m.preservationFactor < 100)
    (hlow : PageSize < m.statistics.garbageMemorySize)
    (hhigh : m.statistics.garbageMemorySize ≤ m.statistics.allocatedMemorySize)
    (hsize : m.statistics.allocatedMemorySize < sizeModulus)
    (hcount : m.statistics.shrinks + 1 < uintModulus) :
    (m.shrink (some base)).map
        (fun result =>
          (result.1, result.2.statistics.allocatedMemorySize, result.2.statistics.shrinks))
      = some (true, m.statistics.allocatedMemorySize - m.statistics.garbageMemorySize,
          m.statistics.shrinks + 1) := by
  have hdiv : m.preservationFactor / 100 = 0 := Nat.div_eq_of_lt hp
  have hne : m.preservationFactor ≠ 100 := by omega
  have hrec : sizeSub m.statistics.garbageMemorySize 0 = m.statistics.garbageMemorySize := by
    unfold sizeSub; simp only [sizeModulus] at *; omega
  have hred : (sizeSub m.statistics.allocatedMemorySize m.statistics.garbageMemorySize + 0)
      % sizeModulus = m.statistics.allocatedMemorySize - m.statistics.garbageMemorySize := by
    unfold sizeSub; simp only [sizeModulus] at *; omega
  have hbig : ¬ m.statistics.garbageMemorySize ≤ PageSize := by omega
  unfold ActiveSetMemory.shrink
  rw [if_neg hne]
  simp only [hdiv, Nat.zero_mul, Nat.zero_mod, hrec, hred, hbig, decide_False,
    resize_of_no_pages m _ base hpages, ActiveSetMemory.initialisePages,
    Nat.mod_eq_of_lt hcount, Option.map_some', Bool.false_eq_true, if_false]

/-! ## Claims C5 to C10: growing and shrinking -/

open ActiveSetMemory in
/-- Claim C5, the code evaluated at the failing input. On a fresh pool (block at 4096),
`copy` of three bytes of value 7 leaves `usedMemorySize == 3`, the top three bytes above the
start and byte 0 of the block equal to 7, with no garbage marked. After `grow(0)` (growth
factor 2, new block at 1048576) the allocated size is 200000, but `usedMemorySize` is 0,
the top is at the start of the new block and byte 0 of the new block is 0. -/
theorem grow_discards_live_prefix :
    (do
      let copied ← (construct 4096).copy (fun _ => 7) 3
      let grown ← copied.2.grow 0 (some 1048576)
      pure (copied.2.statistics.garbageMemorySize, copied.2.statistics.usedMemorySize,
        copied.2.top - copied.2.pool.base, copied.2.pool.bytes 0,
        grown.statistics.allocatedMemorySize, grown.statistics.usedMemorySize,
        grown.top - grown.pool.base, grown.pool.bytes 0))
      = some (0, 3, 3, 7, 200000, 0, 0, 0) := by
  rfl

/-- Claim C6. For every reachable pool with allocated size `A` and growth factor `f`:
`grow(extraBytes)` changes nothing when `f == 1` and `extraBytes == 0`; otherwise, when
`A * f`, `A + extraBytes` and the growth counter plus one do not overflow (and the new
block is allocated, at any address `base`), it sets `allocatedMemorySize` to
`max(A * f, A + extraBytes)` and adds exactly 1 to `growths`. On a fresh pool
`grow(5 * DefaultStackSize)` gives `6 * DefaultStackSize` and `grow(4 * DefaultStackSize)`
gives `5 * DefaultStackSize`. -/
theorem grow_size_law (m : ActiveSetMemory) (extraBytes base origin : Nat)
    (hm : Reachable m) :
    (m.growthFactor = 1 ∧ extraBytes = 0 → m.grow extraBytes (some base) = some m) ∧
    (¬ (m.growthFactor = 1 ∧ extraBytes = 0) →
      m.statistics.allocatedMemorySize * m.growthFactor < sizeModulus →
      m.statistics.allocatedMemorySize + extraBytes < sizeModulus →
      m.statistics.growths + 1 < uintModulus →
      (m.grow extraBytes (some base)).map
          (fun grown => (grown.statistics.allocatedMemorySize, grown.statistics.growths))
        = some (max (m.statistics.allocatedMemorySize * m.growthFactor)
            (m.statistics.allocatedMemorySize + extraBytes), m.statistics.growths + 1)) ∧
    (((ActiveSetMemory.construct origin).grow (5 * DefaultStackSize) (some base)).map
        (fun grown => (grown.statistics.allocatedMemorySize, grown.statistics.growths))
      = some (6 * DefaultStackSize, 1)) ∧
    (((ActiveSetMemory.construct origin).grow (4 * DefaultStackSize) (some base)).map
        (fun grown => (grown.statistics.allocatedMemorySize, grown.statistics.growths))
      = some (5 * DefaultStackSize, 1)) := by
  refine ⟨?_, ?_, ?_, ?_⟩
  · intro h
    simp [ActiveSetMemory.grow, h]
  · exact grow_statistics m extraBytes base (reachable_invariants m hm).1
  · have h := grow_statistics (ActiveSetMemory.construct origin) (5 * DefaultStackSize) base
      (construct_pages_size origin)
      (by rw [construct_growthFactor]; decide)
      (by rw [construct_growthFactor, construct_statistics]; decide)
      (by rw [construct_statistics]; decide)
      (by rw [construct_statistics]; decide)
    rw [h, construct_growthFactor, construct_statistics]
    rfl
  · have h := grow_statistics (ActiveSetMemory.construct origin) (4 * DefaultStackSize) base
      (construct_pages_size origin)
      (by rw [construct_growthFactor]; decide)
      (by rw [construct_growthFactor, construct_statistics]; decide)
      (by rw [construct_statistics]; decide)
      (by rw [construct_statistics]; decide)
    rw [h, construct_growthFactor, construct_statistics]
    rfl

open ActiveSetMemory in
/-- Claim C6 at a concrete input: `grow(500000)` on a fresh pool. -/
theorem grow_size_law_witness :
    Reachable (construct 4096) ∧
    ¬ ((construct 4096).growthFactor = 1 ∧ 500000 = 0) ∧
    ((construct 4096).grow 500000 (some 1048576)).map
        (fun grown => (grown.statistics.allocatedMemorySize, grown.statistics.growths))
      = some (max ((construct 4096).statistics.allocatedMemorySize * (construct 4096).growthFactor)
          ((construct 4096).statistics.allocatedMemorySize + 500000),
          (construct 4096).statistics.growths + 1) :=
  ⟨Reachable.construct 4096, by decide,
    (grow_size_law (construct 4096) 500000 1048576 4096 (Reachable.construct 4096)).2.1
      (by decide) (by decide) (by decide) (by decide)⟩

/-- Claim C7. For every reachable pool with preservation factor 0 whose recorded garbage
`G` satisfies `PageSize < G <= allocatedMemorySize` (the 32-bit `shrinks` counter not being
at its maximum, and the new block being allocated, at any address `base`), `shrink()`
returns true, lowers `allocatedMemorySize` by exactly `G` and adds exactly 1 to `shrinks`.
On a fresh pool, `grow(5 * DefaultStackSize)`, then gathering and marking `4 * PageSize`
bytes, then `shrink()` leaves `6 * DefaultStackSize - 4 * PageSize` allocated bytes. -/
theorem shrink_releases_garbage (m : ActiveSetMemory) (base : Nat)
    (hm : Reachable m) (hp : m.preservationFactor = 0)
    (hlow : PageSize < m.statistics.garbageMemorySize)
    (hhigh : m.statistics.garbageMemorySize ≤ m.statistics.allocatedMemorySize)
    (hcount : m.statistics.shrinks + 1 < uintModulus) :
    (m.shrink (some base)).map
        (fun result =>
          (result.1, result.2.statistics.allocatedMemorySize, result.2.statistics.shrinks))
      = some (true, m.statistics.allocatedMemorySize - m.statistics.garbageMemorySize,
          m.statistics.shrinks + 1) ∧
    (do
      let grown ← (ActiveSetMemory.construct 4096).grow (5 * DefaultStackSize) (some 1048576)
      let garbage := grown.gather (4 * PageSize)
      let marked ← garbage.2.mark garbage.1 (4 * PageSize)
      let shrunk ← marked.shrink (some 4194304)
      pure (grown.statistics.allocatedMemorySize, shrunk.1,
        shrunk.2.statistics.allocatedMemorySize, shrunk.2.statistics.shrinks))
      = some (6 * DefaultStackSize, true, 6 * DefaultStackSize - 4 * PageSize, 1) :=
  ⟨shrink_statistics m base (reachable_invariants m hm).1 (by omega) hlow hhigh
    (reachable_invariants m hm).2.2.2 hcount, rfl⟩

/-- Claim C7 at a concrete input: the pool `markedPool`, with 5000 bytes of garbage. -/
theorem shrink_releases_garbage_witness :
    Reachable markedPool ∧ markedPool.preservationFactor = 0 ∧
    PageSize < markedPool.statistics.garbageMemorySize ∧
    markedPool.statistics.garbageMemorySize ≤ markedPool.statistics.allocatedMemorySize ∧
    (markedPool.shrink (some 1048576)).map
        (fun result =>
          (result.1, result.2.statistics.allocatedMemorySize, result.2.statistics.shrinks))
      = some (true, markedPool.statistics.allocatedMemorySize
          - markedPool.statistics.garbageMemorySize, markedPool.statistics.shrinks + 1) :=
  ⟨reachable_markedPool, by decide, by decide, by decide,
    (shrink_releases_garbage markedPool 1048576 reachable_markedPool (by decide) (by decide)
      (by decide) (by decide)).1⟩

/-- Claim C8. For every reachable pool, if the preservation factor is 100 or the recorded
garbage is at most one page (in particular when nothing was marked), `shrink()` returns
false and leaves the whole pool state unchanged: the statistics, the top pointer, the
buffer and every other field. -/
theorem shrink_refusal (m : ActiveSetMemory) (allocation : Option Nat)
    (hm : Reachable m)
    (h : m.preservationFactor = 100 ∨ m.statistics.garbageMemorySize ≤ PageSize) :
    m.shrink allocation = some (false, m) := by
  have hfactor : m.preservationFactor ≤ 100 := (reachable_invariants m hm).2.1
  unfold ActiveSetMemory.shrink
  by_cases hp : m.preservationFactor = 100
  · rw [if_pos hp]
  · rw [if_neg hp]
    have hg : m.statistics.garbageMemorySize ≤ PageSize := by
      rcases h with h | h
      · exact absurd h hp
      · exact h
    have hdiv : m.preservationFactor / 100 = 0 := Nat.div_eq_of_lt (by omega)
    have hrec : sizeSub m.statistics.garbageMemorySize 0 ≤ PageSize := by
      unfold sizeSub; simp only [sizeModulus, PageSize] at *; omega
    simp only [hdiv, Nat.zero_mul, Nat.zero_mod, hrec, decide_True, if_true]

open ActiveSetMemory in
/-- Claim C8 at a concrete input: `shrink()` on a fresh pool, where nothing was marked. -/
theorem shrink_refusal_witness :
    Reachable (construct 4096) ∧
    ((construct 4096).preservationFactor = 100 ∨
      (construct 4096).statistics.garbageMemorySize ≤ PageSize) ∧
    (construct 4096).shrink (some 1048576) = some (false, construct 4096) :=
  ⟨Reachable.construct 4096, by decide,
    shrink_refusal (construct 4096) (some 1048576) (Reachable.construct 4096) (by decide)⟩

open ActiveSetMemory in
/-- Claim C9, the code evaluated at two failing inputs. With preservation factor 50, a
fresh pool on which 10000 bytes were gathered and marked shrinks from 100000 to 90000
allocated bytes: all 10000 bytes of garbage are released and none is retained. With 6000
bytes gathered and marked, where half of the garbage (3000) does not exceed `PageSize`,
`shrink()` still returns true and releases all 6000 bytes. -/
theorem shrink_ignores_preservation_percentage :
    (do
      let garbage := ((construct 4096).setPreservationFactor 50).gather 10000
      let marked ← garbage.2.mark garbage.1 10000
      let shrunk ← marked.shrink (some 1048576)
      pure (marked.getPreservationFactor, marked.statistics.garbageMemorySize,
        marked.statistics.allocatedMemorySize, shrunk.1,
        shrunk.2.statistics.allocatedMemorySize))
      = some (50, 10000, 100000, true, 90000) ∧
    (do
      let garbage := ((construct 4096).setPreservationFactor 50).gather 6000
      let marked ← garbage.2.mark garbage.1 6000
      let shrunk ← marked.shrink (some 1048576)
      pure (marked.getPreservationFactor, marked.statistics.garbageMemorySize,
        marked.statistics.allocatedMemorySize, shrunk.1,
        shrunk.2.statistics.allocatedMemorySize))
      = some (50, 6000, 100000, true, 94000) :=
  ⟨rfl, rfl⟩

open ActiveSetMemory in
/-- Claim C10, the code evaluated at the failing input. On a fresh pool (block at 4096) a
live object of 100 bytes with values 1 to 100 is stored by `copy`, then 5000 bytes are
gathered and marked as garbage. `shrink()` (new block at 1048576) returns true, and
afterwards `usedMemorySize` is 0, the top is at the start of the new block and every byte of
the new block is 0: the live object is not in the new buffer. -/
theorem shrink_discards_live_data :
    ∃ marked shrunk : ActiveSetMemory,
      (do
        let copied ← (construct 4096).copy (fun i => i + 1) 100
        let garbage := copied.2.gather 5000
        garbage.2.mark garbage.1 5000) = some marked ∧
      marked.statistics.usedMemorySize = 5100 ∧
      marked.statistics.garbageMemorySize = 5000 ∧
      marked.pool.bytes 0 = 1 ∧ marked.pool.bytes 99 = 100 ∧
      marked.shrink (some 1048576) = some (true, shrunk) ∧
      shrunk.statistics.usedMemorySize = 0 ∧
      shrunk.top = shrunk.pool.base ∧
      ∀ offset : Nat, shrunk.pool.bytes offset = 0 :=
  ⟨_, _, rfl, rfl, rfl, rfl, rfl, rfl, rfl, rfl, fun _ => rfl⟩

/-! ## Properties of `mark`, `grow` and `clone`, and the scenario pools -/

/-- The pool `shrunkPool` is what the successful `shrink()` of `markedPool` leaves. -/
theorem shrink_markedPool : markedPool.shrink (some 1048576) = some (true, shrunkPool) := rfl

/-- The pool `shrunkPool` is reachable. -/
theorem reachable_shrunkPool : Reachable shrunkPool :=
  Reachable.shrink markedPool shrunkPool (some 1048576) true reachable_markedPool
    shrink_markedPool

/-- The pool `doubleMarkedPool` is reachable: construct, `gather(60000)`, `mark` twice. -/
theorem reachable_doubleMarkedPool : Reachable doubleMarkedPool :=
  Reachable.mark
    ((((ActiveSetMemory.construct 4096).gather 60000).2.mark 4096 60000).getD
      (ActiveSetMemory.construct 4096))
    doubleMarkedPool 4096 60000
    (Reachable.mark _ _ 4096 60000
      (Reachable.gather _ 60000 (Reachable.construct 4096)) rfl) rfl

/-- The statistics after a `mark` that returns: the call either is the no-op of the guard or
adds `size` to `garbageMemorySize`; nothing else in the pool changes but the page storage. -/
theorem mark_effect (m after : ActiveSetMemory) (destination size : Nat)
    (h : m.mark destination size = some after) :
    (after = m ∨
      after.statistics =
        { m.statistics with
          garbageMemorySize := (m.statistics.garbageMemorySize + size) % sizeModulus }) ∧
    after.topOfStack = m.topOfStack ∧ after.frames = m.frames ∧ after.pool = m.pool ∧
    after.capacity = m.capacity ∧ after.growthFactor = m.growthFactor ∧
    after.preservationFactor = m.preservationFactor := by
  unfold ActiveSetMemory.mark at h
  simp only at h
  split at h
  · simp at h
  · split at h
    · split at h
      · simp at h
      · split at h
        · simp at h
        · simp only [Option.some.injEq] at h
          subst h
          exact ⟨Or.inr rfl, rfl, rfl, rfl, rfl, rfl, rfl⟩
    · simp only [Option.some.injEq] at h
      subst h
      exact ⟨Or.inl rfl, rfl, rfl, rfl, rfl, rfl, rfl⟩

/-- The statistics after a `grow` that returns: the garbage size is kept, and the allocated
size does not fall when `allocatedMemorySize + moreBytes` does not overflow. -/
theorem grow_garbage_allocated (m after : ActiveSetMemory) (moreBytes : Nat)
    (allocation : Option Nat) (h : m.grow moreBytes allocation = some after)
    (hadd : m.statistics.allocatedMemorySize + moreBytes < sizeModulus) :
    after.statistics.garbageMemorySize = m.statistics.garbageMemorySize ∧
    m.statistics.allocatedMemorySize ≤ after.statistics.allocatedMemorySize := by
  unfold ActiveSetMemory.grow at h
  split at h
  · simp only [Option.some.injEq] at h
    subst h
    exact ⟨rfl, le_refl _⟩
  · simp only at h
    split at h
    · simp at h
    · rename_i resized hres
      simp only [Option.some.injEq] at h
      subst h
      obtain ⟨-, -, -, -, -, h6, h7, -⟩ := resize_fields _ _ _ _ hres
      refine ⟨h7, ?_⟩
      show m.statistics.allocatedMemorySize ≤ resized.statistics.allocatedMemorySize
      rw [h6, Nat.mod_eq_of_lt hadd]
      exact le_trans (Nat.le_add_right _ _) (le_max_left _ _)

/-- What `clone` does when the handle's range lies in the allocated part of the block and
the inner `gather` fits both below `pool + capacity`, an address of the address space, and
inside the block: the new handle is
at the old top, with the capacity and the generation of the original; the bytes of the new
range equal the bytes of the original range, and every byte below the old top, the original
range included, is unchanged. -/
theorem clone_of_fits (m : ActiveSetMemory) (h : GarbageCollected)
    (hbase : m.pool.base ≤ h.destination)
    (hbelow : h.destination + h.capacity ≤ m.topOfStack)
    (hfit : m.topOfStack + h.capacity ≤ m.pool.base + m.capacity)
    (hend : m.pool.base + m.capacity < sizeModulus)
    (hblock : m.topOfStack + h.capacity ≤ m.pool.base + m.pool.size) :
    ∃ after : ActiveSetMemory,
      clone m h = some ({ capacity := h.capacity, destination := m.topOfStack,
                          lifetime := h.lifetime }, after) ∧
      after.topOfStack = m.topOfStack + h.capacity ∧
      (∀ i : Nat, i < h.capacity →
        after.pool.bytes (m.topOfStack - m.pool.base + i)
          = m.pool.bytes (h.destination - m.pool.base + i)) ∧
      (∀ j : Nat, j < m.topOfStack - m.pool.base → after.pool.bytes j = m.pool.bytes j) := by
  have hg := gather_of_fits m h.capacity hfit hend
  by_cases hzero : h.capacity = 0
  · refine ⟨(m.gather h.capacity).2, ?_, ?_, ?_, ?_⟩
    · simp [clone, ActiveSetMemory.copy, Buffer.read, Buffer.write, hzero]
      rw [hzero] at hg
      rw [hg]
    · rw [hg]
    · intro i hi
      omega
    · intro j _
      rw [gather_pool]
  · have hover : rangesOverlap m.topOfStack h.capacity h.destination h.capacity = false := by
      simp [rangesOverlap]
      intro hcontra
      omega
    have hread : m.pool.inBounds h.destination h.capacity = true := by
      simp [Buffer.inBounds]
      omega
    have hwrite : m.pool.inBounds m.topOfStack h.capacity = true := by
      simp [Buffer.inBounds]
      omega
    unfold clone
    rw [hg]
    simp only [hover, Bool.false_eq_true, and_false, if_false, Buffer.read, hzero, hread,
      if_true, ActiveSetMemory.copy, hg, Buffer.write, hwrite]
    refine ⟨_, rfl, rfl, ?_, ?_⟩
    · intro i hi
      simp only
      rw [if_pos ⟨by omega, by omega⟩]
      congr 1
      omega
    · intro j hj
      simp only
      rw [if_neg (by omega)]

/-! ## Claims C11 to C20: invariants, `reserve`, `mark` and `clone` -/

/-- Claim C11, the code evaluated at the failing input. On a fresh pool, `gather(5000)`,
`mark` of that range and a first `shrink()` leave 95000 allocated bytes, preservation
factor 0 and `garbageMemorySize` still 5000, although those 5000 bytes were just released.
A second `shrink()` issued at once returns true again and lowers the allocated size to
90000. -/
theorem second_shrink_releases_again :
    markedPool.shrink (some 1048576) = some (true, shrunkPool) ∧
    (shrunkPool.preservationFactor, shrunkPool.statistics.garbageMemorySize,
      shrunkPool.statistics.allocatedMemorySize, shrunkPool.statistics.shrinks) =
      (0, 5000, 95000, 1) ∧
    (shrunkPool.shrink (some 2097152)).map
        (fun result =>
          (result.1, result.2.statistics.allocatedMemorySize, result.2.statistics.shrinks,
            result.2.statistics.garbageMemorySize))
      = some (true, 90000, 2, 5000) :=
  ⟨rfl, rfl, rfl⟩

/-- Claim C12, the code evaluated at the failing input. The state after
`gather(5000); mark; shrink(); gather(96000)` on a fresh pool is reachable, and in it
`usedMemorySize` is 96000 while `allocatedMemorySize` is 95000. -/
theorem used_exceeds_allocated_after_shrink :
    Reachable (shrunkPool.gather 96000).2 ∧
    (shrunkPool.gather 96000).2.statistics.usedMemorySize = 96000 ∧
    (shrunkPool.gather 96000).2.statistics.allocatedMemorySize = 95000 ∧
    ¬ ((shrunkPool.gather 96000).2.statistics.usedMemorySize
        ≤ (shrunkPool.gather 96000).2.statistics.allocatedMemorySize) :=
  ⟨Reachable.gather _ 96000 reachable_shrunkPool, rfl, rfl, by decide⟩

/-- Claim C13, counterexample. The pool in which `gather(60000)` was followed by two `mark`
calls of the gathered range is reachable, and in it `garbageMemorySize` is 120000 while
`allocatedMemorySize` is 100000: the invariant does not hold in every reachable state. -/
theorem garbage_exceeds_allocated_after_double_mark :
    ¬ (∀ m : ActiveSetMemory, Reachable m →
        m.statistics.garbageMemorySize ≤ m.statistics.allocatedMemorySize) := by
  intro h
  have hbad := h doubleMarkedPool reachable_doubleMarkedPool
  exact absurd hbad (by decide)

/-- Claim C13, amended. From a pool in which `garbageMemorySize <= allocatedMemorySize`
holds, as it does in a fresh pool, the inequality still holds after `gather`, `copy`, `push`
and `pop`, after `grow` and `reserve` when `allocatedMemorySize` plus the requested bytes
does not overflow, and after `mark(p, size)` when `garbageMemorySize + size` was at most
`allocatedMemorySize` before the call: a `mark` that is not ignored adds `size` to
`garbageMemorySize` whether or not the range was marked before or is longer than the pool.
Nothing is said about `shrink`. -/
theorem garbage_le_allocated_preserved (m : ActiveSetMemory)
    (hinv : m.statistics.garbageMemorySize ≤ m.statistics.allocatedMemorySize) :
    (∀ base : Nat,
      (ActiveSetMemory.construct base).statistics.garbageMemorySize
        ≤ (ActiveSetMemory.construct base).statistics.allocatedMemorySize) ∧
    (∀ n : Nat,
      (m.gather n).2.statistics.garbageMemorySize
        ≤ (m.gather n).2.statistics.allocatedMemorySize) ∧
    (∀ (original : Nat → Nat) (size destination : Nat) (after : ActiveSetMemory),
      m.copy original size = some (destination, after) →
      after.statistics.garbageMemorySize ≤ after.statistics.allocatedMemorySize) ∧
    m.push.statistics.garbageMemorySize ≤ m.push.statistics.allocatedMemorySize ∧
    (∀ after : ActiveSetMemory, m.pop = some after →
      after.statistics.garbageMemorySize ≤ after.statistics.allocatedMemorySize) ∧
    (∀ (moreBytes : Nat) (allocation : Option Nat) (after : ActiveSetMemory),
      m.grow moreBytes allocation = some after →
      m.statistics.allocatedMemorySize + moreBytes < sizeModulus →
      after.statistics.garbageMemorySize ≤ after.statistics.allocatedMemorySize) ∧
    (∀ (n : Nat) (allocation : Option Nat) (after : ActiveSetMemory),
      m.reserve n allocation = some after →
      m.statistics.allocatedMemorySize + n < sizeModulus →
      after.statistics.garbageMemorySize ≤ after.statistics.allocatedMemorySize) ∧
    (∀ (destination size : Nat) (after : ActiveSetMemory),
      m.mark destination size = some after →
      (after.statistics.garbageMemorySize = m.statistics.garbageMemorySize ∨
        after.statistics.garbageMemorySize
          = (m.statistics.garbageMemorySize + size) % sizeModulus) ∧
      after.statistics.allocatedMemorySize = m.statistics.allocatedMemorySize ∧
      (m.statistics.garbageMemorySize + size ≤ m.statistics.allocatedMemorySize →
        after.statistics.garbageMemorySize ≤ after.statistics.allocatedMemorySize)) := by
  refine ⟨?_, ?_, ?_, hinv, ?_, ?_, ?_, ?_⟩
  · intro base
    rw [construct_statistics]
    decide
  · intro n
    unfold ActiveSetMemory.gather
    split <;> exact hinv
  · intro original size destination after hcopy
    unfold ActiveSetMemory.copy at hcopy
    simp only at hcopy
    split at hcopy
    · simp at hcopy
    · simp only [Option.some.injEq, Prod.mk.injEq] at hcopy
      obtain ⟨-, rfl⟩ := hcopy
      unfold ActiveSetMemory.gather
      split <;> exact hinv
  · intro after hpop
    unfold ActiveSetMemory.pop at hpop
    split at hpop
    · simp at hpop
    · simp only [Option.some.injEq] at hpop
      subst hpop
      exact hinv
  · intro moreBytes allocation after hgrow hadd
    obtain ⟨hg, ha⟩ := grow_garbage_allocated m after moreBytes allocation hgrow hadd
    rw [hg]
    exact le_trans hinv ha
  · intro n allocation after hres hadd
    unfold ActiveSetMemory.reserve at hres
    split at hres
    · obtain ⟨hg, ha⟩ := grow_garbage_allocated m after n allocation hres hadd
      rw [hg]
      exact le_trans hinv ha
    · simp only [Option.some.injEq] at hres
      subst hres
      exact hinv
  · intro destination size after hmark
    obtain ⟨hcase, -⟩ := mark_effect m after destination size hmark
    rcases hcase with rfl | hstat
    · exact ⟨Or.inl rfl, rfl, fun _ => hinv⟩
    · rw [hstat]
      refine ⟨Or.inr rfl, rfl, fun hroom => ?_⟩
      exact le_trans (Nat.mod_le _ _) hroom

/-- Claim C13, amended, at a concrete input: a second `mark` of 5000 bytes on `markedPool`,
where 5000 of the 100000 allocated bytes are recorded as garbage. -/
theorem garbage_le_allocated_preserved_witness :
    markedPool.statistics.garbageMemorySize ≤ markedPool.statistics.allocatedMemorySize ∧
    ∃ after : ActiveSetMemory, markedPool.mark 4096 5000 = some after ∧
      after.statistics.garbageMemorySize ≤ after.statistics.allocatedMemorySize :=
  ⟨by decide, _, rfl,
    ((garbage_le_allocated_preserved markedPool (by decide)).2.2.2.2.2.2.2
      4096 5000 _ rfl).2.2 (by decide)⟩

/-- Claim C14, the code evaluated at two failing inputs. After
`gather(5000); mark; shrink(); gather(96000)` the top of the stack is 96000 bytes above the
start of a block of 95000 allocated bytes, above the end of the buffer. After `push()` on a
fresh pool whose block is at 1048576 and a `grow(0)` whose new block is at 4096, the frame
marker is still the old address 1048576 and the top of the stack, 4096, lies below it. -/
theorem top_leaves_frame_and_buffer_bounds :
    ((shrunkPool.gather 96000).2.top, (shrunkPool.gather 96000).2.pool.base,
      (shrunkPool.gather 96000).2.statistics.allocatedMemorySize) = (1144576, 1048576, 95000) ∧
    ¬ ((shrunkPool.gather 96000).2.top
        ≤ (shrunkPool.gather 96000).2.pool.base
          + (shrunkPool.gather 96000).2.statistics.allocatedMemorySize) ∧
    ((ActiveSetMemory.construct 1048576).push.grow 0 (some 4096)).map
        (fun grown => (grown.frames, grown.top, grown.pool.base))
      = some ([1048576], 4096, 4096) :=
  ⟨rfl, by decide, rfl⟩

/-- Claim C15, the code evaluated at the failing input. On a fresh pool `reserve(150000)`
grows the pool to 250000 allocated bytes, so `freeBytes()` is 250000; the `gather(150000)`
that follows returns the null pointer and allocates nothing, because `capacity` is still
100000. -/
theorem gather_fails_after_reserve :
    ((ActiveSetMemory.construct 4096).reserve 150000 (some 1048576)).map
        (fun reserved =>
          (reserved.statistics.allocatedMemorySize, reserved.freeBytes, reserved.capacity,
            (reserved.gather 150000).1,
            (reserved.gather 150000).2.statistics.usedMemorySize))
      = some (250000, 250000, 100000, nullptr, 0) :=
  rfl

/-- Claim C16, counterexample. On a fresh pool `reserve(2^64 - 1)` finds
`freeBytes() == 100000` below the request and grows: `allocatedMemorySize + moreBytes` wraps
around to 99999, the new size is `max(99999, 200000)`, the call returns with `growths == 1`
and `freeBytes()` is 200000, below the request. -/
theorem reserve_wraps_around :
    (ActiveSetMemory.construct 4096).freeBytes < 2 ^ 64 - 1 ∧
    ((ActiveSetMemory.construct 4096).reserve (2 ^ 64 - 1) (some 1048576)).map
        (fun reserved => (reserved.statistics.growths, reserved.freeBytes))
      = some (1, 200000) ∧
    ¬ (2 ^ 64 - 1 ≤ 200000) :=
  ⟨by decide, rfl, by decide⟩

/-- Claim C16, amended. For every reachable pool and every `n`: when `freeBytes() >= n`,
`reserve(n)` leaves the pool state entirely unchanged; otherwise, provided
`allocatedMemorySize + n` and the growth counter plus one do not overflow (and the new block
is allocated, at any address `base`), it grows the pool, adds exactly 1 to `growths` and
`freeBytes() >= n` holds afterwards. -/
theorem reserve_postcondition (m : ActiveSetMemory) (n base : Nat) (hm : Reachable m) :
    (n ≤ m.freeBytes → ∀ allocation : Option Nat, m.reserve n allocation = some m) ∧
    (m.freeBytes < n →
      m.statistics.allocatedMemorySize + n < sizeModulus →
      m.statistics.growths + 1 < uintModulus →
      ∃ after : ActiveSetMemory, m.reserve n (some base) = some after ∧
        after.statistics.growths = m.statistics.growths + 1 ∧
        m.statistics.allocatedMemorySize + n ≤ after.statistics.allocatedMemorySize ∧
        n ≤ after.freeBytes) := by
  constructor
  · intro hfree allocation
    unfold ActiveSetMemory.reserve
    rw [if_neg (by omega)]
  · intro hlt hadd hcount
    have hpages : m.pages.size = 0 := (reachable_invariants m hm).1
    have hn : ¬ (m.growthFactor = 1 ∧ n = 0) := by
      intro h
      omega
    unfold ActiveSetMemory.reserve
    rw [if_pos hlt]
    unfold ActiveSetMemory.grow
    rw [if_neg hn]
    simp only [resize_of_no_pages m _ base hpages]
    refine ⟨_, rfl, ?_, ?_, ?_⟩
    · simp only [ActiveSetMemory.initialisePages, Nat.mod_eq_of_lt hcount]
    · simp only [ActiveSetMemory.initialisePages, Nat.mod_eq_of_lt hadd]
      exact le_max_left _ _
    · have hY : (m.statistics.allocatedMemorySize * m.growthFactor) % sizeModulus
          < sizeModulus := Nat.mod_lt _ (by decide)
      simp only [ActiveSetMemory.freeBytes, ActiveSetMemory.initialisePages, sizeSub,
        Nat.mod_eq_of_lt hadd]
      generalize (m.statistics.allocatedMemorySize * m.growthFactor) % sizeModulus = Y at hY ⊢
      have hmax : max (m.statistics.allocatedMemorySize + n) Y < sizeModulus :=
        max_lt hadd hY
      have hge : m.statistics.allocatedMemorySize + n
          ≤ max (m.statistics.allocatedMemorySize + n) Y := le_max_left _ _
      generalize max (m.statistics.allocatedMemorySize + n) Y = X at hmax hge ⊢
      simp only [sizeModulus] at *
      omega

/-- Claim C16, amended, at a concrete input: `reserve(150000)` on a fresh pool, whose
100000 free bytes are fewer than the request. -/
theorem reserve_postcondition_witness :
    Reachable (ActiveSetMemory.construct 4096) ∧
    (ActiveSetMemory.construct 4096).freeBytes < 150000 ∧
    ∃ after : ActiveSetMemory,
      (ActiveSetMemory.construct 4096).reserve 150000 (some 1048576) = some after ∧
      after.statistics.growths = (ActiveSetMemory.construct 4096).statistics.growths + 1 ∧
      (ActiveSetMemory.construct 4096).statistics.allocatedMemorySize + 150000
        ≤ after.statistics.allocatedMemorySize ∧
      150000 ≤ after.freeBytes :=
  ⟨Reachable.construct 4096, by decide,
    (reserve_postcondition (ActiveSetMemory.construct 4096) 150000 1048576
      (Reachable.construct 4096)).2 (by decide) (by decide) (by decide)⟩

/-- Claim C17, the code evaluated at the failing input. On a fresh pool grown by
`grow(3000000)` to a block of 3100000 bytes at 1048576, the address 2097152 bytes above the
start is inside the pool, yet `mark` of 64 bytes there computes page index 1, which is
above `pages.size() == 0`, and returns without adding anything to `garbageMemorySize`; so
does the top-level `mark` of a handle for that range. -/
theorem mark_beyond_first_page_is_ignored :
    ((grownPool 3000000).pool.base, (grownPool 3000000).pool.size,
      (grownPool 3000000).statistics.garbageMemorySize,
      (grownPool 3000000).pool.inBounds (1048576 + 2097152) 64) = (1048576, 3100000, 0, true) ∧
    ((grownPool 3000000).mark (1048576 + 2097152) 64).map
        (fun marked => marked.statistics.garbageMemorySize) = some 0 ∧
    (mark (grownPool 3000000)
        { capacity := 64, destination := 1048576 + 2097152, lifetime := .Eden }).map
        (fun marked => marked.statistics.garbageMemorySize) = some 0 :=
  ⟨rfl, rfl, rfl⟩

set_option exponentiation.threshold 1024 in
/-- Claim C18, the code evaluated at the failing input. On a fresh pool grown by
`grow(500000)` to a block of 600000 bytes at 1048576, `mark` of 512 bytes at offset 300000
(inside the pool, in the page with number 73) selects page 0 and asks it to reset bit 585 of
its 512-bit bitmask: the call does not return. On a pool whose page bitmasks have every bit
set, `mark` of 1000 bytes at offset 5000 (page number 1, in-page slab 1, two slabs by the
claim) clears bit 9 of page 0, one slab, and no bit of any other page. -/
theorem mark_routes_to_first_page :
    ((grownPool 500000).pool.size, (grownPool 500000).pool.inBounds (1048576 + 300000) 512,
      (1048576 + 300000 - (grownPool 500000).pool.base) / PageSize) = (600000, true, 73) ∧
    (grownPool 500000).mark (1048576 + 300000) 512 = none ∧
    ((withAllBitsSet (ActiveSetMemory.construct 4096)).mark (4096 + 5000) 1000).map
        (fun marked => marked.pages.storage.map (fun page => 2 ^ SlabSize - 1 - page.bitmask))
      = some ([2 ^ 9] ++ List.replicate 23 0) :=
  ⟨rfl, rfl, by decide⟩

/-- Claim C19, the code evaluated at the failing input. On a fresh pool grown by `grow(0)`
to a block of 200000 bytes, `gather(60000, Eden)` returns a handle `h` at the start of the
block and leaves `freeBytes() == 140000`, so `h.capacity` fits in the free space. The
`gather(60000)` inside `clone(h)` returns the null pointer, because `capacity` is still
100000, and the `std::memcpy` to the null pointer is undefined: `clone(h)` does not return a
copy. -/
theorem clone_fails_after_grow :
    ((gather (grownPool 0) 60000 .Eden).1,
      (gather (grownPool 0) 60000 .Eden).2.pool.size,
      (gather (grownPool 0) 60000 .Eden).2.statistics.usedMemorySize,
      (gather (grownPool 0) 60000 .Eden).2.freeBytes,
      ((gather (grownPool 0) 60000 .Eden).2.gather 60000).1)
      = ({ capacity := 60000, destination := 1048576, lifetime := .Eden }, 200000, 60000,
          140000, nullptr) ∧
    clone (gather (grownPool 0) 60000 .Eden).2 (gather (grownPool 0) 60000 .Eden).1 = none ∧
    cloneAs (gather (grownPool 0) 60000 .Eden).2 (gather (grownPool 0) 60000 .Eden).1 .Elder
      = none :=
  ⟨rfl, rfl, rfl⟩

/-- Claim C20, the code evaluated at the failing input. On a fresh pool,
`gather(60000, Eden)` returns a handle `h` and leaves `freeBytes() == 40000`, less than
`h.capacity`. In `clone(h)`, and in `copy` of 60000 bytes, `gather` returns the null pointer
and the `std::memcpy` of 60000 bytes to the null pointer follows unconditionally: the call is
undefined and returns no handle. -/
theorem clone_without_room_is_undefined :
    ((gather (ActiveSetMemory.construct 4096) 60000 .Eden).1,
      (gather (ActiveSetMemory.construct 4096) 60000 .Eden).2.freeBytes,
      ((gather (ActiveSetMemory.construct 4096) 60000 .Eden).2.gather 60000).1)
      = ({ capacity := 60000, destination := 4096, lifetime := .Eden }, 40000, nullptr) ∧
    clone (gather (ActiveSetMemory.construct 4096) 60000 .Eden).2
      (gather (ActiveSetMemory.construct 4096) 60000 .Eden).1 = none ∧
    (gather (ActiveSetMemory.construct 4096) 60000 .Eden).2.copy (fun _ => 7) 60000 = none :=
  ⟨rfl, rfl, rfl⟩

/-! ## Properties of the page tracker -/

/-- The all-zero bitset has no set bit. -/
theorem bitsetCount_zero : bitsetCount 0 = 0 := by
  simp [bitsetCount]

/-- A count of set bits is at most the width of the bitset. -/
theorem bitsetCount_le (bitmask : Nat) : bitsetCount bitmask ≤ SlabSize := by
  unfold bitsetCount
  exact le_trans (List.length_filter_le _ _) (by simp)

/-- A freshly constructed page reports every bit of its bitset as garbage. -/
theorem getGarbageSize_create (origin : Nat) :
    (GarbageBitsetPage.create origin).getGarbageSize = 262144 := by
  simp [GarbageBitsetPage.getGarbageSize, GarbageBitsetPage.create, bitsetCount_zero, SlabSize,
    uintModulus]

/-- The loop of `markAsGarbage` returns when all its indices are below the width of the
bitset, and clears exactly the bits `offset + next .. offset + next + remaining - 1`. -/
theorem resetLoop_spec (offset : Nat) :
    ∀ (remaining next bitmask : Nat), offset + next + remaining ≤ SlabSize →
      ∃ cleared : Nat, resetLoop offset remaining next bitmask = some cleared ∧
        ∀ i : Nat, i < SlabSize →
          cleared.testBit i =
            (bitmask.testBit i &&
              !(decide (offset + next ≤ i) && decide (i < offset + next + remaining))) := by
  intro remaining
  induction remaining with
  | zero =>
    intro next bitmask _
    refine ⟨bitmask, rfl, fun i _ => ?_⟩
    have hempty : (decide (offset + next ≤ i) && decide (i < offset + next + 0)) = false := by
      simp
    rw [hempty]
    simp
  | succ r ih =>
    intro next bitmask hfit
    have hpos : offset + next < SlabSize := by omega
    have hmod : (offset + next) % uintModulus = offset + next :=
      Nat.mod_eq_of_lt (by simp only [SlabSize, uintModulus] at *; omega)
    obtain ⟨cleared, hrec, hbits⟩ :=
      ih (next + 1) (bitmask &&& ((2 ^ SlabSize - 1) ^^^ 2 ^ (offset + next))) (by omega)
    refine ⟨cleared, ?_, fun i hi => ?_⟩
    · simp only [resetLoop, hmod, bitsetReset, hpos, if_true]
      exact hrec
    · rw [hbits i hi]
      simp only [Nat.testBit_and, Nat.testBit_xor, Nat.testBit_two_pow_sub_one,
        Nat.testBit_two_pow, hi, decide_True, Bool.true_xor]
      by_cases h1 : offset + next = i
      · have h2 : offset + next ≤ i := by omega
        have h3 : i < offset + next + (r + 1) := by omega
        simp [h1, h2, h3]
      · by_cases h2 : offset + (next + 1) ≤ i ∧ i < offset + (next + 1) + r
        · have h3 : offset + next ≤ i ∧ i < offset + next + (r + 1) := by omega
          simp [h1, h2.1, h2.2, h3.1, h3.2]
        · have h3 : ¬ (offset + next ≤ i ∧ i < offset + next + (r + 1)) := by omega
          simp only [h1, decide_False, Bool.not_false, Bool.and_true]
          congr 1
          simp only [Bool.not_eq_eq_eq_not, Bool.not_not]
          simp only [← Bool.decide_and]
          simp [h2, h3]

/-- On the all-zero bitset the loop of `markAsGarbage` changes nothing. -/
theorem resetLoop_zero (offset : Nat) :
    ∀ (remaining next : Nat), offset + next + remaining ≤ SlabSize →
      resetLoop offset remaining next 0 = some 0 := by
  intro remaining
  induction remaining with
  | zero =>
    intro next _
    rfl
  | succ r ih =>
    intro next hfit
    have hpos : offset + next < SlabSize := by omega
    have hmod : (offset + next) % uintModulus = offset + next :=
      Nat.mod_eq_of_lt (by simp only [SlabSize, uintModulus] at *; omega)
    simp only [resetLoop, hmod, bitsetReset, hpos, if_true, Nat.zero_and]
    exact ih (next + 1) (by omega)

/-- Splitting a count by a second predicate. -/
theorem filter_length_split (l : List Nat) (p q : Nat → Bool) :
    (l.filter p).length =
      (l.filter (fun i => q i && p i)).length + (l.filter (fun i => p i && !q i)).length := by
  induction l with
  | nil => rfl
  | cons a rest ih =>
    simp only [List.filter_cons]
    cases hp : p a <;> cases hq : q a <;> simp [ih] <;> omega

/-- The loop of `getGarbageSizeBefore` does not return when it starts inside the bitset and
is to run past its last bit: `test` throws at index `SlabSize`. -/
theorem garbageAfterLoop_none (bitmask : Nat) :
    ∀ (remaining afterIndex size : Nat), afterIndex ≤ SlabSize →
      SlabSize < afterIndex + remaining →
      garbageAfterLoop bitmask remaining afterIndex size = none := by
  intro remaining
  induction remaining with
  | zero =>
    intro afterIndex size h1 h2
    omega
  | succ r ih =>
    intro afterIndex size h1 h2
    by_cases hin : afterIndex < SlabSize
    · simp only [garbageAfterLoop, bitsetTest, hin, if_true]
      cases bitmask.testBit afterIndex
      · exact ih (afterIndex + 1) _ (by omega) (by omega)
      · exact ih (afterIndex + 1) _ (by omega) (by omega)
    · simp [garbageAfterLoop, bitsetTest, hin]

/-- The method `getGarbageSizeBefore` does not return for any separator between the origin
of the page and `origin + PageSize`: its loop runs up to index `PageSize` and `test` throws
at index `SlabSize`, inside a `noexcept` function. -/
theorem getGarbageSizeBefore_none (page : GarbageBitsetPage) (separator : Nat)
    (hlow : page.beginning ≤ separator) (hhigh : separator ≤ page.beginning + PageSize) :
    page.getGarbageSizeBefore separator = none := by
  have hq : Int.tdiv ((separator : Int) - (page.beginning : Int)) (SlabSize : Int)
      = (((separator - page.beginning) / SlabSize : Nat) : Int) := by
    rw [Int.ofNat_tdiv, Int.ofNat_sub hlow]
  have hsmall : (separator - page.beginning) / SlabSize ≤ 8 := by
    simp only [SlabSize, PageSize] at *
    omega
  unfold GarbageBitsetPage.getGarbageSizeBefore
  simp only [hq]
  generalize (separator - page.beginning) / SlabSize = quotient at hsmall
  have hnot : ¬ ((quotient : Int) > (SlabsInPage : Int)) := by
    simp only [SlabsInPage]
    omega
  rw [if_neg hnot]
  have hu : toUint (quotient : Int) = quotient := by
    unfold toUint
    simp only [uintModulus]
    omega
  simp only [hu]
  rw [garbageAfterLoop_none _ _ _ _ (by simp only [SlabSize]; omega)
    (by simp only [SlabSize, PageSize]; omega)]

/-! ## Properties of the top-level API -/

/-- The fields of the handle that the top-level `gather` returns: the capacity and the
generation are the arguments, and the destination is the old top exactly when the pointer
sum of the request, wrapped around at `2 ^ 64`, is not above `pool + capacity`. -/
theorem gather_handle (m : ActiveSetMemory) (size : Nat)
    (lifetime : GarbageCollectionGeneration) :
    (gather m size lifetime).1 =
      { capacity := size
        destination :=
          if (m.topOfStack + size) % sizeModulus ≤ (m.pool.base + m.capacity) % sizeModulus
          then m.topOfStack else nullptr
        lifetime := lifetime } := by
  unfold gather ActiveSetMemory.gather
  by_cases hfit :
      (m.topOfStack + size) % sizeModulus ≤ (m.pool.base + m.capacity) % sizeModulus
  · rw [if_neg (by omega), if_pos hfit]
  · rw [if_pos (by omega), if_neg hfit]

/-- The method `shrink` keeps the frame markers. -/
theorem shrink_frames (m after : ActiveSetMemory) (allocation : Option Nat) (shrunk : Bool)
    (h : m.shrink allocation = some (shrunk, after)) : after.frames = m.frames := by
  unfold ActiveSetMemory.shrink at h
  split at h
  · simp only [Option.some.injEq, Prod.mk.injEq] at h
    obtain ⟨-, rfl⟩ := h
    rfl
  · simp only at h
    split at h
    · simp only [Option.some.injEq, Prod.mk.injEq] at h
      obtain ⟨-, rfl⟩ := h
      rfl
    · split at h
      · simp at h
      · rename_i resized hr
        simp only [Option.some.injEq, Prod.mk.injEq] at h
        obtain ⟨-, rfl⟩ := h
        exact (resize_fields _ _ _ _ hr).2.2.2.2.1

/-- The method `grow` keeps the frame markers. -/
theorem grow_frames (m after : ActiveSetMemory) (moreBytes : Nat) (allocation : Option Nat)
    (h : m.grow moreBytes allocation = some after) : after.frames = m.frames := by
  unfold ActiveSetMemory.grow at h
  split at h
  · simp only [Option.some.injEq] at h
    subst h
    rfl
  · simp only at h
    split at h
    · simp at h
    · rename_i resized hr
      simp only [Option.some.injEq] at h
      subst h
      exact (resize_fields _ _ _ _ hr).2.2.2.2.1

/-- The steps of `collect`: the state `current` after the optional `pop`, and the state
after the `shrink` or the `grow` that follows it. -/
theorem collect_steps (m after : ActiveSetMemory) (level : GarbageCollectionGeneration)
    (extra : Nat) (allocation : Option Nat) (summary : GarbageCollectionSummary)
    (h : collect m level extra allocation = some (summary, after)) :
    ∃ current : ActiveSetMemory,
      ((level = .Eden ∨ level = .Young ∨ level = .Elder) → m.pop = some current) ∧
      ((level = .Antique ∨ level = .Pernament) → current = m) ∧
      ((∃ shrunk : Bool, current.shrink allocation = some (shrunk, after)) ∨
        current.grow extra allocation = some after) ∧
      summary = generateGarbageCollectionSummary m.statistics after := by
  unfold collect at h
  simp only at h
  split at h
  · simp at h
  · rename_i current hcur
    split at h
    · simp at h
    · rename_i final hfinal
      simp only [Option.some.injEq, Prod.mk.injEq] at h
      obtain ⟨hsum, rfl⟩ := h
      refine ⟨current, ?_, ?_, ?_, hsum.symm⟩
      · intro hl
        rcases hl with rfl | rfl | rfl <;> exact hcur
      · intro hl
        rcases hl with rfl | rfl <;> simp only [Option.some.injEq] at hcur <;> exact hcur.symm
      · split at hfinal
        · left
          cases hs : current.shrink allocation with
          | none => simp [hs] at hfinal
          | some result =>
            rw [hs] at hfinal
            simp only [Option.map_some', Option.some.injEq] at hfinal
            exact ⟨result.1, by rw [← hfinal]⟩
        · right
          exact hfinal

/-! ## Claims C21 to C30: top-level API, setters, initial state and page tracker -/

/-- Claim C21, the code evaluated at two failing inputs. The handle always carries the
requested capacity and generation. On a fresh pool grown by `grow(0)` to 200000 bytes,
`gather(150000, Young)` fits in `freeBytes() == 200000`, yet the destination is null. On the
pool left by `gather(5000); mark; shrink()`, with `freeBytes() == 95000`,
`gather(96000, Elder)` does not fit, yet the destination is the non-null top 1048576. -/
theorem gather_handle_ignores_free_space :
    (grownPool 0).freeBytes = 200000 ∧
    (gather (grownPool 0) 150000 .Young).1
      = { capacity := 150000, destination := nullptr, lifetime := .Young } ∧
    (shrunkPool.freeBytes, shrunkPool.top) = (95000, 1048576) ∧
    (gather shrunkPool 96000 .Elder).1
      = { capacity := 96000, destination := 1048576, lifetime := .Elder } :=
  ⟨rfl, rfl, rfl, rfl⟩

/-- Claim C22, the code evaluated at the failing input. On a fresh pool with 90000 bytes
gathered, `collect(Antique, 50000)` computes the available memory as
`allocated - garbage + used = 190000`, above the request, and calls `shrink()`, which
refuses because nothing is marked: the call returns with `freeBytes() == 10000`, below the
50000 bytes asked for. -/
theorem collect_leaves_too_little_room :
    (collect ((ActiveSetMemory.construct 4096).gather 90000).2 .Antique 50000
        (some 1048576)).map
        (fun result =>
          (result.2.freeBytes, result.2.statistics.allocatedMemorySize,
            result.2.statistics.usedMemorySize))
      = some (10000, 100000, 90000) ∧
    ¬ (50000 ≤ 10000) :=
  ⟨rfl, by decide⟩

/-- The frame markers around a `collect(level, e)` that returns: for the levels `Eden`,
`Young` and `Elder` it has called `pop()` exactly once, which takes the most recent frame
marker off the frames, moves the top of the stack to that marker and lowers
`usedMemorySize` by the span between the old top and the marker, and the `shrink` or `grow`
that follows keeps the remaining frame markers; for the levels `Antique` and `Pernament` no
`pop()` runs and the frame markers after the call are those before it. -/
theorem collect_frames_by_tier (m after : ActiveSetMemory) (level : GarbageCollectionGeneration)
    (extra : Nat) (allocation : Option Nat) (summary : GarbageCollectionSummary)
    (h : collect m level extra allocation = some (summary, after)) :
    ((level = .Eden ∨ level = .Young ∨ level = .Elder) →
      ∃ (marker : Nat) (rest : List Nat) (popped : ActiveSetMemory),
        m.frames = marker :: rest ∧ m.pop = some popped ∧
        popped.frames = rest ∧ popped.top = marker ∧
        popped.statistics.usedMemorySize
          = sizeSub m.statistics.usedMemorySize (toSize ((m.top : Int) - (marker : Int))) ∧
        ((∃ shrunk : Bool, popped.shrink allocation = some (shrunk, after)) ∨
          popped.grow extra allocation = some after) ∧
        after.frames = rest) ∧
    ((level = .Antique ∨ level = .Pernament) →
      ((∃ shrunk : Bool, m.shrink allocation = some (shrunk, after)) ∨
        m.grow extra allocation = some after) ∧
      after.frames = m.frames) := by
  obtain ⟨current, hweak, hstrong, hstep, -⟩ :=
    collect_steps m after level extra allocation summary h
  have hframes : after.frames = current.frames := by
    rcases hstep with ⟨shrunk, hs⟩ | hg
    · exact shrink_frames _ _ _ _ hs
    · exact grow_frames _ _ _ _ hg
  constructor
  · intro hl
    have hpop := hweak hl
    unfold ActiveSetMemory.pop at hpop
    split at hpop
    · simp at hpop
    · rename_i back rest hfr
      simp only [Option.some.injEq] at hpop
      refine ⟨back, rest, current, hfr, ?_, ?_, ?_, ?_, hstep, ?_⟩
      · unfold ActiveSetMemory.pop
        rw [hfr]
        simp only [hpop]
      · rw [← hpop]
      · rw [← hpop]
        rfl
      · rw [← hpop]
        rfl
      · rw [hframes, ← hpop]
  · intro hl
    have hcur := hstrong hl
    subst hcur
    exact ⟨hstep, hframes⟩

/-- Claim C23, the code evaluated at the failing inputs. On a fresh pool (block at 4096)
after `gather(100)`, `push()` and `gather(50)`, the frame marker is 4196 and a `pop()` would
leave the top there with `usedMemorySize == 100`. `collect(Eden, 200000)` removes the frame,
but the `grow` that follows the `pop()` replaces the block (new block at 1048576): the call
returns with the top at the start of the new block and `usedMemorySize == 0`. The same
happens through `shrink` in `collect(Young, 0)` on the pool with 5000 bytes of recorded
garbage, whose marker is 5000 bytes above the start of the block. `collect(Elder, 0)` on the
first pool, where `shrink` refuses, returns with the top at the marker and
`usedMemorySize == 100`; `collect(Antique, 0)` leaves the frame in place. -/
theorem collect_discards_the_rewound_state :
    framedPool.frames = [4196] ∧
    framedPool.pop.map (fun popped => (popped.frames, popped.top,
        popped.statistics.usedMemorySize)) = some ([], 4196, 100) ∧
    (collect framedPool .Eden 200000 (some 1048576)).map
        (fun result => (result.2.frames, result.2.top, result.2.pool.base,
          result.2.statistics.usedMemorySize)) = some ([], 1048576, 1048576, 0) ∧
    markedFramedPool.pop.map (fun popped => (popped.frames, popped.top,
        popped.statistics.usedMemorySize)) = some ([], 9096, 5000) ∧
    (collect markedFramedPool .Young 0 (some 1048576)).map
        (fun result => (result.2.frames, result.2.top, result.2.pool.base,
          result.2.statistics.usedMemorySize)) = some ([], 1048576, 1048576, 0) ∧
    (collect framedPool .Elder 0 (some 1048576)).map
        (fun result => (result.2.frames, result.2.top, result.2.pool.base,
          result.2.statistics.usedMemorySize)) = some ([], 4196, 4096, 100) ∧
    (collect framedPool .Antique 0 (some 1048576)).map
        (fun result => result.2.frames) = some [4196] := by
  refine ⟨rfl, rfl, rfl, rfl, rfl, rfl, rfl⟩

/-- Claim C24, the code evaluated at the failing input. On a fresh pool
`collect(Antique, 200000)` grows the pool from 100000 to 300000 allocated bytes. The
summary has `aliveMemoryInBytes == 0`, the used size after the call, but
`reclaimedMemoryInBytes == 2^64 - 200000`: the unsigned difference
`previous allocated - current allocated` wraps around, instead of being 0, and exceeds the
100000 bytes allocated before the call. -/
theorem collect_summary_after_growth :
    (collect (ActiveSetMemory.construct 4096) .Antique 200000 (some 1048576)).map
        (fun result =>
          (result.2.statistics.allocatedMemorySize, result.2.statistics.growths,
            result.2.statistics.shrinks, result.2.statistics.usedMemorySize, result.1))
      = some (300000, 1, 0, 0,
          { reclaimedMemoryInBytes := 2 ^ 64 - 200000, aliveMemoryInBytes := 0 }) ∧
    ¬ (2 ^ 64 - 200000 ≤ (ActiveSetMemory.construct 4096).statistics.allocatedMemorySize) :=
  ⟨rfl, by decide⟩

/-- Claim C25. For every pool, `setGrowthFactor(f)` sets the growth factor to `f` when
`f != 0` and leaves the pool unchanged when `f == 0`; `setPreservationFactor(v)` sets the
preservation factor to `v` when `v <= 100` and leaves the pool unchanged when `v > 100`;
neither setter changes any other field. -/
theorem factor_setters_validate (m : ActiveSetMemory) (f v : Nat) :
    (f ≠ 0 → m.setGrowthFactor f = { m with growthFactor := f }) ∧
    m.setGrowthFactor 0 = m ∧
    (v ≤ 100 → m.setPreservationFactor v = { m with preservationFactor := v }) ∧
    (100 < v → m.setPreservationFactor v = m) ∧
    ((m.setGrowthFactor f).getGrowthFactor = if f = 0 then m.getGrowthFactor else f) ∧
    ((m.setPreservationFactor v).getPreservationFactor
      = if v ≤ 100 then v else m.getPreservationFactor) ∧
    (m.setGrowthFactor f).preservationFactor = m.preservationFactor ∧
    (m.setPreservationFactor v).growthFactor = m.growthFactor ∧
    ((m.setGrowthFactor f).topOfStack, (m.setGrowthFactor f).frames,
      (m.setGrowthFactor f).pages, (m.setGrowthFactor f).statistics,
      (m.setGrowthFactor f).capacity) =
      (m.topOfStack, m.frames, m.pages, m.statistics, m.capacity) ∧
    (m.setGrowthFactor f).pool = m.pool ∧
    ((m.setPreservationFactor v).topOfStack, (m.setPreservationFactor v).frames,
      (m.setPreservationFactor v).pages, (m.setPreservationFactor v).statistics,
      (m.setPreservationFactor v).capacity) =
      (m.topOfStack, m.frames, m.pages, m.statistics, m.capacity) ∧
    (m.setPreservationFactor v).pool = m.pool := by
  unfold ActiveSetMemory.setGrowthFactor ActiveSetMemory.setPreservationFactor
    ActiveSetMemory.getGrowthFactor ActiveSetMemory.getPreservationFactor
  refine ⟨?_, ?_, ?_, ?_, ?_, ?_, ?_, ?_, ?_, ?_, ?_, ?_⟩
  · intro hf
    rw [if_pos hf]
  · simp
  · intro hv
    rw [if_pos (by omega)]
  · intro hv
    rw [if_neg (by omega)]
  · by_cases hf : f = 0 <;> simp [hf]
  · by_cases hv : v ≤ 100
    · rw [if_pos (by omega), if_pos hv]
    · rw [if_neg (by omega), if_neg hv]
  · split <;> rfl
  · split <;> rfl
  · split <;> rfl
  · split <;> rfl
  · split <;> rfl
  · split <;> rfl

/-- Claim C25 at the inputs of the test `factorsAreValidated`: on a fresh pool
`setPreservationFactor(105)` leaves 0, `setPreservationFactor(50)` gives 50,
`setGrowthFactor(0)` leaves 2 and `setGrowthFactor(3)` gives 3. -/
theorem factor_setters_validate_witness :
    (3 ≠ 0 ∧ 50 ≤ 100 ∧ 100 < 105) ∧
    ((ActiveSetMemory.construct 4096).setPreservationFactor 105).getPreservationFactor = 0 ∧
    ((ActiveSetMemory.construct 4096).setPreservationFactor 50).getPreservationFactor = 50 ∧
    ((ActiveSetMemory.construct 4096).setGrowthFactor 0).getGrowthFactor = 2 ∧
    ((ActiveSetMemory.construct 4096).setGrowthFactor 3).getGrowthFactor = 3 := by
  refine ⟨by decide, ?_, ?_, ?_, ?_⟩
  · rw [(factor_setters_validate (ActiveSetMemory.construct 4096) 3 105).2.2.2.1 (by decide)]
    rfl
  · rw [(factor_setters_validate (ActiveSetMemory.construct 4096) 3 50).2.2.1 (by decide)]
    rfl
  · rw [(factor_setters_validate (ActiveSetMemory.construct 4096) 3 50).2.1]
    rfl
  · rw [(factor_setters_validate (ActiveSetMemory.construct 4096) 3 50).1 (by decide)]
    rfl

/-- Claim C26. A freshly constructed pool, whatever the address of its block, has the
statistics `{0, 0, DefaultStackSize, 0, 0, 0}` with `DefaultStackSize == 100000`, growth
factor 2, preservation factor 0, no frame marker, and its top at the start of the block,
which has `DefaultStackSize` zero bytes. -/
theorem construct_initial_state (base : Nat) :
    (ActiveSetMemory.construct base).getMemoryUsage =
      { usedMemorySize := 0, garbageMemorySize := 0, allocatedMemorySize := DefaultStackSize,
        allocatedObjects := 0, growths := 0, shrinks := 0 } ∧
    DefaultStackSize = 100000 ∧
    (ActiveSetMemory.construct base).getGrowthFactor = 2 ∧
    (ActiveSetMemory.construct base).getPreservationFactor = 0 ∧
    (ActiveSetMemory.construct base).frames = [] ∧
    (ActiveSetMemory.construct base).top = (ActiveSetMemory.construct base).pool.base ∧
    (ActiveSetMemory.construct base).pool.base = base ∧
    (ActiveSetMemory.construct base).pool.size = DefaultStackSize ∧
    (∀ offset : Nat, (ActiveSetMemory.construct base).pool.bytes offset = 0) :=
  ⟨rfl, rfl, rfl, rfl, rfl, rfl, rfl, rfl, fun _ => rfl⟩

/-- Claim C27, the code evaluated. `SlabSize` is `64 * 8 = 512`, not 64; the bitmask is a
`std::bitset<SlabSize>`, so it has 512 bits and `test` accepts the indices 64 to 511;
`SlabsInPage * SlabSize` is 32768 while `PageSize` is 4096; and a freshly constructed page
reports 262144 bytes of garbage, far more than `PageSize`. -/
theorem page_geometry_of_the_code (origin : Nat) :
    SlabSize = 512 ∧ SlabsInPage = 64 ∧ PageSize = 4096 ∧
    SlabsInPage * SlabSize = 32768 ∧
    bitsetTest 0 64 = some false ∧ bitsetTest 0 511 = some false ∧ bitsetTest 0 512 = none ∧
    (GarbageBitsetPage.create origin).getGarbageSize = 262144 ∧
    PageSize < (GarbageBitsetPage.create origin).getGarbageSize := by
  refine ⟨rfl, rfl, rfl, rfl, by decide, by decide, by decide, getGarbageSize_create origin, ?_⟩
  rw [getGarbageSize_create]
  decide

/-- Claim C28, the code evaluated at the failing input. For every origin the freshly
constructed page reports `getGarbageSize() == 262144`, every one of its 512 bits counting as
garbage, not 0; and after `markAsGarbage(3, 2)` on that page the report is still 262144, not
`2 * SlabSize`. -/
theorem fresh_page_is_all_garbage (origin : Nat) :
    (GarbageBitsetPage.create origin).getGarbageSize = 262144 ∧
    ((GarbageBitsetPage.create origin).markAsGarbage 3 2).map GarbageBitsetPage.getGarbageSize
      = some 262144 ∧
    2 * SlabSize = 1024 := by
  refine ⟨getGarbageSize_create origin, ?_, rfl⟩
  have hmark : (GarbageBitsetPage.create origin).markAsGarbage 3 2
      = some (GarbageBitsetPage.create origin) := by
    have hguard : (3 : Nat) ≤ PageSize := by decide
    simp only [GarbageBitsetPage.markAsGarbage, hguard, if_true, GarbageBitsetPage.create]
    rw [show ((2 : Int).toNat) = 2 from rfl, resetLoop_zero 3 2 0 (by decide)]
  rw [hmark, Option.map_some', getGarbageSize_create]

/-- Claim C29. For every page state and every offset `k` and amount `m` with `k + m` within
the bits of the bitmask (`k + m <= SlabSize`, in particular `k + m <= SlabsInPage`),
`markAsGarbage(k, m)` returns and makes exactly the slabs `k .. k + m - 1` garbage (bit
cleared), leaves every other slab, the origin and both scan cursors unchanged, and raises
`getGarbageSize()` by `SlabSize` times the number of slabs in `k .. k + m - 1` that were
alive (bit set) before. For an address `p` at or after the origin, the pointer overload
`markAsGarbage(p, m)` is `markAsGarbage((p - origin) / SlabSize, m)`. -/
theorem markAsGarbage_effect (page : GarbageBitsetPage) (k m : Nat)
    (hfit : k + m ≤ SlabSize) :
    (∃ marked : GarbageBitsetPage, page.markAsGarbage k (m : Int) = some marked ∧
      (∀ i : Nat, i < SlabSize →
        marked.bitmask.testBit i =
          (page.bitmask.testBit i && !(decide (k ≤ i) && decide (i < k + m)))) ∧
      marked.beginning = page.beginning ∧
      marked.yieldingGarbageSlabIndex = page.yieldingGarbageSlabIndex ∧
      marked.yieldingAliveSlabIndex = page.yieldingAliveSlabIndex ∧
      marked.getGarbageSize =
        page.getGarbageSize + SlabSize *
          ((List.range SlabSize).filter
            (fun i => (decide (k ≤ i) && decide (i < k + m)) && page.bitmask.testBit i)).length) ∧
    (∀ (p : Nat) (amount : Int), page.beginning ≤ p →
      (p - page.beginning) / SlabSize < uintModulus →
      page.markAsGarbageAt p amount
        = page.markAsGarbage ((p - page.beginning) / SlabSize) amount) := by
  constructor
  · obtain ⟨cleared, hloop, hbits⟩ := resetLoop_spec k m 0 page.bitmask (by omega)
    have hguard : k ≤ PageSize := by
      simp only [SlabSize, PageSize] at *
      omega
    refine ⟨{ page with bitmask := cleared }, ?_, ?_, rfl, rfl, rfl, ?_⟩
    · simp only [GarbageBitsetPage.markAsGarbage, hguard, if_true, Int.toNat_ofNat, hloop]
    · intro i hi
      have := hbits i hi
      simpa using this
    · have hafter : bitsetCount cleared
          = ((List.range SlabSize).filter
              (fun i => page.bitmask.testBit i && !(decide (k ≤ i) && decide (i < k + m)))).length := by
        unfold bitsetCount
        refine congrArg List.length (List.filter_congr ?_)
        intro i hi
        have hlt : i < SlabSize := List.mem_range.mp hi
        have := hbits i hlt
        simpa using this
      have hsplit := filter_length_split (List.range SlabSize)
        (fun i => page.bitmask.testBit i) (fun i => decide (k ≤ i) && decide (i < k + m))
      have hle := bitsetCount_le page.bitmask
      unfold GarbageBitsetPage.getGarbageSize
      simp only [hafter]
      unfold bitsetCount at hle ⊢
      rw [hsplit] at hle ⊢
      generalize ((List.range SlabSize).filter
        (fun i => (decide (k ≤ i) && decide (i < k + m)) && page.bitmask.testBit i)).length
        = alive at hle ⊢
      generalize ((List.range SlabSize).filter
        (fun i => page.bitmask.testBit i && !(decide (k ≤ i) && decide (i < k + m)))).length
        = kept at hle ⊢
      simp only [SlabSize, uintModulus] at *
      omega
  · intro p amount hp hq
    have hquot : Int.tdiv ((p : Int) - (page.beginning : Int)) (SlabSize : Int)
        = (((p - page.beginning) / SlabSize : Nat) : Int) := by
      rw [Int.ofNat_tdiv, Int.ofNat_sub hp]
    unfold GarbageBitsetPage.markAsGarbageAt
    simp only [hquot]
    generalize (p - page.beginning) / SlabSize = quotient at hq
    have hrange : ¬ ((quotient : Int) < 0 ∨ (quotient : Int) ≥ (sizeModulus : Int)) := by
      simp only [sizeModulus, uintModulus] at *
      omega
    rw [if_neg hrange, Int.toNat_ofNat, Nat.mod_eq_of_lt hq]

/-- Claim C29 at a concrete input: `markAsGarbage(3, 2)` on a page whose 512 bits are all
set clears bit 3 and keeps bit 5. -/
theorem markAsGarbage_effect_witness :
    3 + 2 ≤ SlabSize ∧
    ∃ marked : GarbageBitsetPage,
      allAlivePage.markAsGarbage 3 ((2 : Nat) : Int) = some marked ∧
      marked.bitmask.testBit 3 = false ∧ marked.bitmask.testBit 5 = true := by
  refine ⟨by decide, ?_⟩
  obtain ⟨marked, hmark, hbits, -⟩ := (markAsGarbage_effect allAlivePage 3 2 (by decide)).1
  refine ⟨marked, hmark, ?_, ?_⟩
  · rw [hbits 3 (by decide)]
    simp
  · have hset : allAlivePage.bitmask.testBit 5 = true := by
      show (2 ^ SlabSize - 1).testBit 5 = true
      rw [Nat.testBit_two_pow_sub_one]
      decide
    rw [hbits 5 (by decide), hset]
    simp

/-- Claim C30, the code evaluated at the failing inputs. On a freshly constructed page with
origin 4096, `getGarbageSizeBefore` returns for none of the separators `origin`,
`origin + 1024` and `origin + PageSize`: each call tests bit 512 of the 512-bit bitmask and
terminates the program. -/
theorem getGarbageSizeBefore_does_not_return :
    (GarbageBitsetPage.create 4096).getGarbageSizeBefore 4096 = none ∧
    (GarbageBitsetPage.create 4096).getGarbageSizeBefore (4096 + 1024) = none ∧
    (GarbageBitsetPage.create 4096).getGarbageSizeBefore (4096 + PageSize) = none :=
  ⟨getGarbageSizeBefore_none _ _ (by decide) (by decide),
    getGarbageSizeBefore_none _ _ (by decide) (by decide),
    getGarbageSizeBefore_none _ _ (by decide) (by decide)⟩

/-! ## Claims C31 and C33: the sector scans of a page -/

set_option exponentiation.threshold 1024 in
/-- On a freshly constructed page `markAsGarbage(3, 2)` changes nothing: the bits it resets
are zero already. -/
theorem freshMarkedPage_eq : freshMarkedPage = GarbageBitsetPage.create 4096 := by decide

set_option exponentiation.threshold 1024 in
/-- The bitmask of `twoSlabsMarkedPage`: all 512 bits but the bits 3 and 4. -/
theorem twoSlabsMarkedPage_bitmask : twoSlabsMarkedPage.bitmask = 2 ^ 512 - 1 - 8 - 16 := by
  decide

set_option exponentiation.threshold 1024 in
set_option maxRecDepth 100000 in
/-- The method `getGarbageSize` counts two slabs of garbage on `twoSlabsMarkedPage`, the
slabs 3 and 4. -/
theorem twoSlabsMarkedPage_garbageSize : twoSlabsMarkedPage.getGarbageSize = 2 * SlabSize := by
  decide

set_option exponentiation.threshold 1024 in
/-- Claim C31, the code evaluated at the failing inputs. On a freshly constructed page after
`markAsGarbage(3, 2)`, where `getGarbageSize` counts all 512 slabs as garbage,
`yeildNextGarbageSector` returns `{0, nullptr}`. On a page whose only garbage by
`getGarbageSize` is the slabs 3 and 4 it returns the run of the set bits 0 to 2, with the
number of slabs as capacity: `{3, origin}` and not `{2 * SlabSize, origin + 3 * SlabSize}`. -/
theorem yeildNextGarbageSector_measures_set_bits :
    freshMarkedPage.getGarbageSize = SlabSize * SlabSize ∧
    freshMarkedPage.yeildNextGarbageSector false
      = some ({ capacity := 0, destination := nullptr, lifetime := .Eden }, freshMarkedPage) ∧
    twoSlabsMarkedPage.getGarbageSize = 2 * SlabSize ∧
    twoSlabsMarkedPage.yeildNextGarbageSector false
      = some ({ capacity := 3, destination := 4096, lifetime := .Eden },
          twoSlabsMarkedPage) := by
  refine ⟨?_, by decide, twoSlabsMarkedPage_garbageSize, by decide⟩
  rw [freshMarkedPage_eq, getGarbageSize_create]
  decide

set_option exponentiation.threshold 1024 in
/-- A page state with set bits, which no method of the class produces. On a page with
origin 4096 whose slabs are all alive by `getGarbageSize` except the slabs 3 and 4,
`yieldNextAliveSector` skips the set bits 0 to 2 and returns the run of the unset bits 3 and
4, with the number of slabs as capacity: `{2, origin + 3 * SlabSize}` and not
`{3 * SlabSize, origin}`. -/
theorem yieldNextAliveSector_measures_unset_bits :
    twoSlabsMarkedPage.bitmask.testBit 0 = true ∧
    twoSlabsMarkedPage.bitmask.testBit 3 = false ∧
    twoSlabsMarkedPage.bitmask.testBit 4 = false ∧
    twoSlabsMarkedPage.bitmask.testBit 5 = true ∧
    twoSlabsMarkedPage.yieldNextAliveSector false
      = some ({ capacity := 2, destination := 4096 + 3 * SlabSize, lifetime := .Eden },
          twoSlabsMarkedPage) := by
  refine ⟨?_, ?_, ?_, ?_, by decide⟩ <;> rw [twoSlabsMarkedPage_bitmask] <;> decide

/-- Claim C33. A call of `yeildNextGarbageSector` or `yieldNextAliveSector` with
`shouldMoveSlabCounter = false` that returns leaves the page as it was, bitmask and both
cursors, so the same call made again returns the same sector. -/
theorem peek_does_not_consume (page after : GarbageBitsetPage) (sector : GarbageCollected) :
    (page.yeildNextGarbageSector false = some (sector, after) →
      after = page ∧ after.yeildNextGarbageSector false = some (sector, after)) ∧
    (page.yieldNextAliveSector false = some (sector, after) →
      after = page ∧ after.yieldNextAliveSector false = some (sector, after)) := by
  constructor
  · intro h
    have hpage : after = page := by
      unfold GarbageBitsetPage.yeildNextGarbageSector at h
      simp only at h
      split at h
      · simp only [Option.some.injEq, Prod.mk.injEq] at h
        exact h.2.symm
      · split at h
        · simp at h
        · split at h
          · simp at h
          · simp only [Bool.false_eq_true, if_false, Option.some.injEq, Prod.mk.injEq] at h
            exact h.2.symm
    subst hpage
    exact ⟨rfl, h⟩
  · intro h
    have hpage : after = page := by
      unfold GarbageBitsetPage.yieldNextAliveSector at h
      simp only at h
      split at h
      · simp only [Option.some.injEq, Prod.mk.injEq] at h
        exact h.2.symm
      · split at h
        · simp at h
        · split at h
          · simp at h
          · simp only [Bool.false_eq_true, if_false, Option.some.injEq, Prod.mk.injEq] at h
            exact h.2.symm
    subst hpage
    exact ⟨rfl, h⟩

set_option exponentiation.threshold 1024 in
/-- Claim C33 at a concrete input: peeking at the page whose bits are all set except the
bits 3 and 4 returns the sector `{3, 4096}` and the page unchanged, and so does a second
peek. -/
theorem peek_does_not_consume_witness :
    twoSlabsMarkedPage.yieldNextAliveSector false
      = some ({ capacity := 2, destination := 5632, lifetime := .Eden }, twoSlabsMarkedPage) ∧
    (twoSlabsMarkedPage = twoSlabsMarkedPage ∧
      twoSlabsMarkedPage.yieldNextAliveSector false
        = some ({ capacity := 2, destination := 5632, lifetime := .Eden },
            twoSlabsMarkedPage)) :=
  ⟨by decide,
    (peek_does_not_consume twoSlabsMarkedPage twoSlabsMarkedPage
      { capacity := 2, destination := 5632, lifetime := .Eden }).2 (by decide)⟩

set_option exponentiation.threshold 1024 in
/-- A page state with set bits, which no method of the class produces. On the page whose
bits are all set except the bits 3 and 4, `yieldNextAliveSector(true)` returns the run at
slab 3 and moves
the alive cursor to slab 3, the first slab of that run; the next call with `true` returns
the same run again and leaves the cursor at 3, and so does every later call.
`yeildNextGarbageSector(true)` returns the run at slab 0 and leaves the garbage cursor at 0,
so that it too returns the same run on every call. -/
theorem consuming_yield_repeats_the_run :
    twoSlabsMarkedPage.yieldNextAliveSector true
      = some ({ capacity := 2, destination := 4096 + 3 * SlabSize, lifetime := .Eden },
          aliveCursorAtThreePage) ∧
    aliveCursorAtThreePage.yieldingAliveSlabIndex = 3 ∧
    aliveCursorAtThreePage.yieldNextAliveSector true
      = some ({ capacity := 2, destination := 4096 + 3 * SlabSize, lifetime := .Eden },
          aliveCursorAtThreePage) ∧
    twoSlabsMarkedPage.yeildNextGarbageSector true
      = some ({ capacity := 3, destination := 4096, lifetime := .Eden },
          twoSlabsMarkedPage) := by
  refine ⟨by decide, rfl, by decide, by decide⟩

set_option exponentiation.threshold 1024 in
set_option maxRecDepth 100000 in
/-- Page states with set bits, which no method of the class produces. On a page in which
every slab is alive (all 512 bits set, cursors 0) neither scan returns: the loop over the
set bits runs
on to `bitmask.test(512)`, which throws `std::out_of_range` in a `noexcept` method. The same
happens to `yeildNextGarbageSector` on the page whose bits are all set except the bits 3 and
4 with the garbage cursor at slab 5, where the measured run reaches the last slab. -/
theorem sector_scans_leave_the_bitmask :
    allAlivePage.yeildNextGarbageSector false = none ∧
    allAlivePage.yieldNextAliveSector false = none ∧
    garbageCursorAtFivePage.yieldingGarbageSlabIndex < SlabSize ∧
    garbageCursorAtFivePage.yeildNextGarbageSector false = none := by
  decide

/-! ## Claims C32, C34 and C39: the sector scans on the producible pages -/

/-- After a `resize` that returns, with no page in the logical range of the vector, the top
of the stack is the start of the new block, `usedMemorySize` is zero and `allocatedObjects`
is what it was. -/
theorem resize_lockstep (m r : ActiveSetMemory) (newSize : Nat) (allocation : Option Nat)
    (hpages : m.pages.size = 0) (h : m.resize newSize allocation = some r) :
    r.topOfStack = r.pool.base ∧ r.statistics.usedMemorySize = 0 ∧
    r.statistics.allocatedObjects = m.statistics.allocatedObjects := by
  cases allocation with
  | none => simp [ActiveSetMemory.resize] at h
  | some base =>
    rw [resize_of_no_pages m newSize base hpages] at h
    simp only [Option.some.injEq] at h
    subst h
    exact ⟨rfl, rfl, rfl⟩

/-- A state in which the top of the stack is the start of the block, `usedMemorySize` is
zero and `allocatedObjects` is zero is in lockstep. -/
theorem lockstep_of_rewound (m : ActiveSetMemory) (htop : m.topOfStack = m.pool.base)
    (hused : m.statistics.usedMemorySize = 0) (hobjects : m.statistics.allocatedObjects = 0) :
    Lockstep m := by
  refine ⟨?_, hobjects⟩
  rw [htop, hused]
  simp [toSize]

/-- The method `grow` keeps the lockstep relation. -/
theorem grow_lockstep (m after : ActiveSetMemory) (moreBytes : Nat) (allocation : Option Nat)
    (hpages : m.pages.size = 0) (hm : Lockstep m)
    (h : m.grow moreBytes allocation = some after) : Lockstep after := by
  unfold ActiveSetMemory.grow at h
  split at h
  · simp only [Option.some.injEq] at h
    subst h
    exact hm
  · simp only at h
    split at h
    · simp at h
    · rename_i resized hres
      simp only [Option.some.injEq] at h
      subst h
      obtain ⟨h1, h2, h3⟩ := resize_lockstep _ _ _ _ hpages hres
      exact lockstep_of_rewound _ h1 h2 (h3.trans hm.2)

/-- Every reachable state is in lockstep: each method moves the top of the stack and
`usedMemorySize` by the same amount modulo `2 ^ 64`, and none writes `allocatedObjects`. -/
theorem reachable_lockstep (m : ActiveSetMemory) (h : Reachable m) : Lockstep m := by
  induction h with
  | construct base => exact lockstep_of_rewound _ rfl rfl rfl
  | gather m n _ ih =>
    unfold ActiveSetMemory.gather
    split
    · exact ih
    · obtain ⟨h1, h2⟩ := ih
      refine ⟨?_, h2⟩
      unfold toSize at *
      simp only [sizeModulus] at *
      push_cast
      omega
  | copy m after original size destination _ hcopy ih =>
    unfold ActiveSetMemory.copy at hcopy
    simp only at hcopy
    split at hcopy
    · simp at hcopy
    · rename_i written hw
      simp only [Option.some.injEq, Prod.mk.injEq] at hcopy
      obtain ⟨-, rfl⟩ := hcopy
      have hbase : written.base = (m.gather size).2.pool.base := by
        unfold Buffer.write at hw
        split at hw
        · simp only [Option.some.injEq] at hw
          rw [← hw]
        · split at hw
          · simp only [Option.some.injEq] at hw
            rw [← hw]
          · simp at hw
      have hg : Lockstep (m.gather size).2 := by
        unfold ActiveSetMemory.gather
        split
        · exact ih
        · obtain ⟨h1, h2⟩ := ih
          refine ⟨?_, h2⟩
          unfold toSize at *
          simp only [sizeModulus] at *
          push_cast
          omega
      unfold Lockstep at hg ⊢
      simp only [hbase]
      exact hg
  | mark m after destination size _ hmark ih =>
    obtain ⟨hstat, htop, -, hpool, -⟩ := mark_effect _ _ _ _ hmark
    unfold Lockstep at ih ⊢
    rw [htop, hpool]
    rcases hstat with h | h
    · rw [h]; exact ih
    · rw [h]; exact ih
  | push m _ ih => exact ih
  | pop m after _ hpop ih =>
    unfold ActiveSetMemory.pop at hpop
    split at hpop
    · simp at hpop
    · simp only [Option.some.injEq] at hpop
      subst hpop
      obtain ⟨h1, h2⟩ := ih
      refine ⟨?_, h2⟩
      simp only
      rw [← h1]
      unfold sizeSub toSize
      simp only [sizeModulus]
      omega
  | grow m after moreBytes allocation hr hgrow ih =>
    exact grow_lockstep _ _ _ _ (reachable_invariants m hr).1 ih hgrow
  | reserve m after n allocation hr hres ih =>
    unfold ActiveSetMemory.reserve at hres
    split at hres
    · exact grow_lockstep _ _ _ _ (reachable_invariants m hr).1 ih hres
    · simp only [Option.some.injEq] at hres
      subst hres
      exact ih
  | shrink m after allocation shrunk hr hshrink ih =>
    unfold ActiveSetMemory.shrink at hshrink
    split at hshrink
    · simp only [Option.some.injEq, Prod.mk.injEq] at hshrink
      obtain ⟨-, rfl⟩ := hshrink
      exact ih
    · simp only at hshrink
      split at hshrink
      · simp only [Option.some.injEq, Prod.mk.injEq] at hshrink
        obtain ⟨-, rfl⟩ := hshrink
        exact ih
      · split at hshrink
        · simp at hshrink
        · rename_i resized hres
          simp only [Option.some.injEq, Prod.mk.injEq] at hshrink
          obtain ⟨-, rfl⟩ := hshrink
          obtain ⟨h1, h2, h3⟩ := resize_lockstep _ _ _ _ (reachable_invariants m hr).1 hres
          exact lockstep_of_rewound _ h1 h2 (h3.trans ih.2)
  | setGrowthFactor m factor _ ih =>
    unfold ActiveSetMemory.setGrowthFactor
    split <;> exact ih
  | setPreservationFactor m factor _ ih =>
    unfold ActiveSetMemory.setPreservationFactor
    split <;> exact ih

/-- The pool `poppedAfterGrowPool` is reachable: construct, `push`, `grow(0)`, `pop`. -/
theorem reachable_poppedAfterGrowPool : Reachable poppedAfterGrowPool :=
  Reachable.pop
    (((ActiveSetMemory.construct 4096).push.grow 0 (some 1048576)).getD
      (ActiveSetMemory.construct 4096))
    poppedAfterGrowPool
    (Reachable.grow (ActiveSetMemory.construct 4096).push _ 0 (some 1048576)
      (Reachable.push _ (Reachable.construct 4096)) rfl)
    rfl

/-- Claim C35, the code evaluated at the failing inputs. When `std::make_unique` throws
`std::bad_alloc`, `grow(0)` and `reserve(200000)` on a fresh pool and `shrink()` on a pool
with 5000 bytes of recorded garbage do not return: the exception leaves the `noexcept`
method `resize` and the program is terminated before the handler that calls `raise` is
reached. -/
theorem allocation_failure_terminates :
    (ActiveSetMemory.construct 4096).grow 0 none = none ∧
    (ActiveSetMemory.construct 4096).reserve 200000 none = none ∧
    markedPool.shrink none = none :=
  ⟨rfl, rfl, rfl⟩

/-- Claim C36, the code evaluated at the failing inputs. On a fresh pool (block at 4096)
`gather(56)` succeeds and `getBookmarks()` is 0 afterwards, not 1; after the three
successful calls `gather(56)`, `gather(8)`, `gather(100)` it is 0, not 3. -/
theorem getBookmarks_stays_zero :
    ((ActiveSetMemory.construct 4096).gather 56).1 = 4096 ∧
    ((ActiveSetMemory.construct 4096).gather 56).2.getBookmarks = 0 ∧
    (gatherAll (ActiveSetMemory.construct 4096) [56, 8, 100]).map ActiveSetMemory.getBookmarks
      = some 0 :=
  ⟨rfl, rfl, rfl⟩

/-- Claim C37, the code evaluated at the failing inputs. After construction the page vector
has size 0, not 24; its reserved storage holds 24 trackers. After `grow(500000)` the
allocated size is 600000, which is 146 pages, and after `shrink()` on the pool with 5000
bytes of garbage it is 95000, which is 23 pages: the vector has size 0 and its storage 24
trackers in both. The trackers of the storage are fresh and lie `PageSize` apart from the
start of the new block. -/
theorem pages_do_not_cover_the_buffer :
    (ActiveSetMemory.construct 4096).pages.size = 0 ∧
    (ActiveSetMemory.construct 4096).pages.storage.length = 24 ∧
    (ActiveSetMemory.construct 4096).statistics.allocatedMemorySize / PageSize = 24 ∧
    (grownPool 500000).pages.size = 0 ∧
    (grownPool 500000).pages.storage
      = (List.range 24).map (fun i => GarbageBitsetPage.create (1048576 + i * PageSize)) ∧
    (grownPool 500000).statistics.allocatedMemorySize / PageSize = 146 ∧
    shrunkPool.pages.size = 0 ∧
    shrunkPool.pages.storage
      = (List.range 24).map (fun i => GarbageBitsetPage.create (1048576 + i * PageSize)) ∧
    shrunkPool.statistics.allocatedMemorySize / PageSize = 23 := by
  refine ⟨rfl, rfl, by decide, rfl, by decide, by decide, rfl, by decide, by decide⟩

/-- Claim C38, the code evaluated at the failing input. On a fresh pool (block at 4096),
`push()`, `grow(0)` with the new block at 1048576 and the matching `pop()` leave the top of
the stack at 4096, which is 1044480 bytes below the start of the current block, while
`usedMemorySize` is `2 ^ 64 - 1044480`. -/
theorem top_leaves_usage_after_stale_pop :
    Reachable poppedAfterGrowPool ∧
    poppedAfterGrowPool.top = 4096 ∧
    poppedAfterGrowPool.pool.base = 1048576 ∧
    poppedAfterGrowPool.statistics.usedMemorySize = 2 ^ 64 - 1044480 ∧
    (poppedAfterGrowPool.top : Int) - (poppedAfterGrowPool.pool.base : Int)
      ≠ (poppedAfterGrowPool.statistics.usedMemorySize : Int) := by
  refine ⟨reachable_poppedAfterGrowPool, rfl, rfl, by decide, by decide⟩

/-- Claim C40, the code evaluated at the failing inputs. On a freshly constructed page
`markAsGarbage(600, 1)` passes the guard `offset <= PageSize` and calls `bitmask.reset(600)`
on the 512-bit bitmask, and `getGarbageSizeBefore(origin)` tests bit 512: neither returns.
On a fresh pool (block at 4096, 100000 bytes), whose page vector has size 0, `mark` passes
the guard `pageIndex <= pages.size()` with page number 0 for the address 150000 bytes above
the start of the block and for the address 100 bytes below it, and adds the size to
`garbageMemorySize` in both calls. -/
theorem accesses_leave_their_range :
    (GarbageBitsetPage.create 4096).markAsGarbage 600 1 = none ∧
    (GarbageBitsetPage.create 4096).getGarbageSizeBefore 4096 = none ∧
    (ActiveSetMemory.construct 4096).pages.size = 0 ∧
    (ActiveSetMemory.construct 4096).statistics.garbageMemorySize = 0 ∧
    ((ActiveSetMemory.construct 4096).mark (4096 + 150000) 64).map
        (fun after => after.statistics.garbageMemorySize) = some 64 ∧
    ((ActiveSetMemory.construct 4096).mark (4096 - 100) 64).map
        (fun after => after.statistics.garbageMemorySize) = some 64 := by
  refine ⟨by decide, getGarbageSizeBefore_none _ _ (by decide) (by decide), rfl, rfl,
    by decide, by decide⟩

end mamba
